import Mathlib

/-!
# Verification of the strategic decision engine (clashroyalebuildabot)

A shallow embedding, in Lean 4, of the parts of the decision engine that the
specification's testable properties talk about:

* `core/combo_system.py` — the combo catalog and the `ComboManager` state
  machine (`start_combo`, `get_next_combo_action`, `_update_combo_state`);
* `core/game_state.py` — `GameStateAnalyzer.analyze_state` and its helpers;
* `advanced_systems/master_integration.py` — the recommendation tracks of
  `MasterBotController`, `_integrate_recommendations`, and the result cache
  of `get_best_action`;
* `advanced_systems/phase_control.py` — `_determine_current_phase` and the
  adaptive updates of the per-phase configurations;
* `advanced_systems/proactive_defense.py` — the counter database and
  `adapt_defenses_based_on_success`;
* `deck_manager.py` / `bot/bot.py` — deck loading and the session-start
  deck validation.

Modelling conventions:

* Python floats (times, confidences, effectiveness weights) are modelled as
  `ℚ`; nothing in the verified code depends on floating-point rounding.
* Python `int` fields (elixir, tower HP, tile coordinates) are `ℤ`.
* Card identities come from the `namespaces.cards` package (the upstream
  catalog of `Card` objects whose `name` fields are lowercase snake-case
  strings); they are modelled as an enumeration of the identities the
  embedded code mentions, plus their `name` strings.
* Mutating methods become functions `State → args → result × State` (or just
  `State → State`).
* Python dictionaries that are built once and only read are association
  lists; `dict.get(k, d)` becomes a lookup with a default.
* Code that can raise (attribute access on possibly-missing snapshot
  fields, deck-configuration errors) returns `Except String _`.
* Euclidean distances are compared against constant thresholds only, so the
  embedding stores and compares *squared* distances: `sqrt d ≤ k ↔ d ≤ k²`
  for the nonnegative quantities involved.  This is the one place the text
  of the source (`** 0.5`) is re-expressed rather than transcribed.
-/

namespace CRBot

/-- Card identities (from the upstream `namespaces.cards` catalog) that the
embedded code refers to.  `other s` stands for any further catalog entry,
carrying its name so that name-keyed lookups still work. -/
inductive Card where
  | giant | musketeer | bomber | hogRider | iceSpirit | golem | nightWitch
  | babyDragon | xBow | tesla | lavaHound | balloon
  | knight | archers | skeletons | spearGoblins | cannon | minipekka
  | infernoTower | pekka | tombstone | zap | arrows | valkyrie
  | skeletonArmy | wizard | fireball | iceGolem | poison | lightning
  | rocket | electroGiant | megaKnight | bats | goblins | healSpirit
  | theLog | infernoDragon | minions | minionHorde | goblinGang
  | mortar | miner | goblinBarrel | princess
  | other (s : String)
deriving DecidableEq, Repr

/-- The `name` attribute of a card object (lowercase snake-case, as in the
upstream catalog). -/
def Card.name : Card → String
  | .giant => "giant"
  | .musketeer => "musketeer"
  | .bomber => "bomber"
  | .hogRider => "hog_rider"
  | .iceSpirit => "ice_spirit"
  | .golem => "golem"
  | .nightWitch => "night_witch"
  | .babyDragon => "baby_dragon"
  | .xBow => "x_bow"
  | .tesla => "tesla"
  | .lavaHound => "lava_hound"
  | .balloon => "balloon"
  | .knight => "knight"
  | .archers => "archers"
  | .skeletons => "skeletons"
  | .spearGoblins => "spear_goblins"
  | .cannon => "cannon"
  | .minipekka => "minipekka"
  | .infernoTower => "inferno_tower"
  | .pekka => "pekka"
  | .tombstone => "tombstone"
  | .zap => "zap"
  | .arrows => "arrows"
  | .valkyrie => "valkyrie"
  | .skeletonArmy => "skeleton_army"
  | .wizard => "wizard"
  | .fireball => "fireball"
  | .iceGolem => "ice_golem"
  | .poison => "poison"
  | .lightning => "lightning"
  | .rocket => "rocket"
  | .electroGiant => "electro_giant"
  | .megaKnight => "mega_knight"
  | .bats => "bats"
  | .goblins => "goblins"
  | .healSpirit => "heal_spirit"
  | .theLog => "the_log"
  | .infernoDragon => "inferno_dragon"
  | .minions => "minions"
  | .minionHorde => "minion_horde"
  | .goblinGang => "goblin_gang"
  | .mortar => "mortar"
  | .miner => "miner"
  | .goblinBarrel => "goblin_barrel"
  | .princess => "princess"
  | .other s => s

/-- `AdvancedElixirController._estimate_card_cost`
(`advanced_systems/advanced_elixir_control.py`): the static cost table keyed
by `card.name.lower()`, default 4.  `MasterBotController._estimate_card_cost`
delegates to it. -/
def estimateCardCost (card : Card) : ℤ :=
  match card with
  | .skeletons => 1 | .iceSpirit => 1 | .healSpirit => 1
  | .bats => 2 | .spearGoblins => 2 | .goblins => 2 | .zap => 2
  | .skeletonArmy => 3 | .archers => 3 | .knight => 3 | .arrows => 3
  | .cannon => 3 | .tombstone => 3 | .bomber => 3
  | .musketeer => 4 | .minipekka => 4 | .valkyrie => 4 | .hogRider => 4
  | .fireball => 4 | .tesla => 4 | .iceGolem => 2 | .poison => 4
  | .giant => 5 | .wizard => 5 | .balloon => 5 | .infernoTower => 5
  | .lightning => 6 | .rocket => 6 | .pekka => 7 | .golem => 8
  | .electroGiant => 8 | .lavaHound => 7 | .megaKnight => 7
  | _ => 4

/-- Insertion of one element into a sorted list: placed before the first
element it may precede. -/
def insertSorted (le : α → α → Bool) (x : α) : List α → List α
  | [] => [x]
  | y :: ys => if le x y then x :: y :: ys else y :: insertSorted le x ys

/-- Python's stable `list.sort` with a total preorder `le` (`le a b` = "a may
come before b"): a stable sort's output is uniquely determined by `le` and
the input order, so this structurally recursive insertion sort coincides
with any other stable sort, and it reduces inside the kernel. -/
def pySortStable (le : α → α → Bool) (l : List α) : List α :=
  l.foldr (insertSorted le) []

/-! ## Combo system (`core/combo_system.py`) -/

/-- `ComboType` enum. -/
inductive ComboType where
  | tankSupport | quickCycle | spellBait | counterPush | buildingSiege | airSwarm
deriving DecidableEq, Repr

/-- `ComboDefinition` dataclass. -/
structure ComboDefinition where
  name : String
  combo_type : ComboType
  primary_card : Card
  support_cards : List Card
  min_elixir : ℤ
  max_elixir : ℤ
  timing_delay : ℚ
  positioning_rules : List (String × String)
  success_conditions : List String
  priority : ℤ
deriving DecidableEq, Repr

/-- `ActiveCombo` dataclass. -/
structure ActiveCombo where
  definition : ComboDefinition
  cards_played : List Card
  start_time : ℚ
  expected_next_card : Option Card
  next_card_timing : ℚ
  is_complete : Bool
  success_probability : ℚ
deriving DecidableEq, Repr

/-- Catalog entry "Giant Musketeer" of `ComboDatabase.COMBOS`. -/
def giantMusketeerCombo : ComboDefinition :=
  { name := "Giant Musketeer"
    combo_type := .tankSupport
    primary_card := .giant
    support_cards := [.musketeer]
    min_elixir := 9, max_elixir := 10
    timing_delay := 2.0
    positioning_rules := [("giant", "behind_king_tower"),
                          ("musketeer", "behind_giant_when_crossing")]
    success_conditions := ["giant_crosses_bridge", "musketeer_behind_giant"]
    priority := 8 }

/-- Catalog entry "Giant Bomber" of `ComboDatabase.COMBOS`. -/
def giantBomberCombo : ComboDefinition :=
  { name := "Giant Bomber"
    combo_type := .tankSupport
    primary_card := .giant
    support_cards := [.bomber]
    min_elixir := 8, max_elixir := 10
    timing_delay := 1.5
    positioning_rules := [("giant", "behind_king_tower"),
                          ("bomber", "behind_giant")]
    success_conditions := ["giant_crosses_bridge"]
    priority := 7 }

/-- Catalog entry "Hog Ice Spirit" of `ComboDatabase.COMBOS`. -/
def hogIceSpiritCombo : ComboDefinition :=
  { name := "Hog Ice Spirit"
    combo_type := .quickCycle
    primary_card := .hogRider
    support_cards := [.iceSpirit]
    min_elixir := 6, max_elixir := 8
    timing_delay := 0.5
    positioning_rules := [("hog_rider", "bridge"),
                          ("ice_spirit", "in_front_of_hog")]
    success_conditions := ["enemy_low_elixir"]
    priority := 9 }

/-- Catalog entry "Golem Night Witch" of `ComboDatabase.COMBOS`. -/
def golemNightWitchCombo : ComboDefinition :=
  { name := "Golem Night Witch"
    combo_type := .tankSupport
    primary_card := .golem
    support_cards := [.nightWitch, .babyDragon]
    min_elixir := 12, max_elixir := 15
    timing_delay := 3.0
    positioning_rules := [("golem", "behind_king_tower"),
                          ("night_witch", "behind_golem"),
                          ("baby_dragon", "behind_golem")]
    success_conditions := ["golem_crosses_bridge"]
    priority := 6 }

/-- Catalog entry "X-Bow Tesla" of `ComboDatabase.COMBOS`. -/
def xBowTeslaCombo : ComboDefinition :=
  { name := "X-Bow Tesla"
    combo_type := .buildingSiege
    primary_card := .xBow
    support_cards := [.tesla]
    min_elixir := 9, max_elixir := 10
    timing_delay := 1.0
    positioning_rules := [("x_bow", "offensive_position"),
                          ("tesla", "defensive_position")]
    success_conditions := ["enemy_no_tanks"]
    priority := 7 }

/-- Catalog entry "LavaLoon" of `ComboDatabase.COMBOS`. -/
def lavaLoonCombo : ComboDefinition :=
  { name := "LavaLoon"
    combo_type := .airSwarm
    primary_card := .lavaHound
    support_cards := [.balloon]
    min_elixir := 12, max_elixir := 15
    timing_delay := 4.0
    positioning_rules := [("lava_hound", "behind_king_tower"),
                          ("balloon", "same_lane_as_lava")]
    success_conditions := ["lava_hound_crosses_bridge"]
    priority := 8 }

/-- `ComboDatabase.COMBOS`: the static combo catalog. -/
def ComboDatabase.COMBOS : List ComboDefinition :=
  [giantMusketeerCombo, giantBomberCombo, hogIceSpiritCombo,
   golemNightWitchCombo, xBowTeslaCombo, lavaLoonCombo]

/-- `ComboDatabase.get_available_combos`: keep catalog combos whose primary
card is in the deck and at least one support card is, sorted by descending
priority (Python `list.sort` is stable; so is `List.mergeSort`). -/
def ComboDatabase.getAvailableCombos (deck : List Card) : List ComboDefinition :=
  let available := ComboDatabase.COMBOS.filter fun combo =>
    combo.primary_card ∈ deck ∧ combo.support_cards.any (· ∈ deck)
  pySortStable (fun a b => b.priority ≤ a.priority) available

/-- `ComboManager` state. -/
structure ComboManager where
  deck : List Card
  available_combos : List ComboDefinition
  active_combos : List ActiveCombo
  combo_history : List String
  last_combo_time : ℚ
deriving DecidableEq, Repr

/-- `ComboManager.__init__`. -/
def ComboManager.init (deck : List Card) : ComboManager :=
  { deck := deck
    available_combos := ComboDatabase.getAvailableCombos deck
    active_combos := []
    combo_history := []
    last_combo_time := 0 }

/-- `ComboManager.start_combo`: append a fresh `ActiveCombo` whose expected
next card is the primary card and whose first deadline is the start time. -/
def ComboManager.startCombo (m : ComboManager) (combo : ComboDefinition)
    (current_time : ℚ) : ActiveCombo × ComboManager :=
  let active : ActiveCombo :=
    { definition := combo
      cards_played := []
      start_time := current_time
      expected_next_card := some combo.primary_card
      next_card_timing := current_time
      is_complete := false
      success_probability := 0.8 }
  (active, { m with active_combos := m.active_combos ++ [active],
                    last_combo_time := current_time })

/-- The `ActiveCombo` record `start_combo` creates: nothing played yet, the
primary card expected, and the first deadline equal to the start time. -/
def freshActiveCombo (d : ComboDefinition) (t₀ : ℚ) : ActiveCombo :=
  { definition := d, cards_played := [], start_time := t₀,
    expected_next_card := some d.primary_card, next_card_timing := t₀,
    is_complete := false, success_probability := 0.8 }

/-- `ComboManager._get_position_coordinates`: the fixed rule → tile lookup. -/
def positionCoordinates (position_rule : String) : ℤ × ℤ :=
  if position_rule = "behind_king_tower" then (9, 4)
  else if position_rule = "bridge" then (9, 7)
  else if position_rule = "behind_giant" then (9, 6)
  else if position_rule = "behind_giant_when_crossing" then (9, 8)
  else if position_rule = "in_front_of_hog" then (9, 8)
  else if position_rule = "offensive_position" then (9, 10)
  else if position_rule = "defensive_position" then (9, 5)
  else if position_rule = "same_lane_as_lava" then (9, 6)
  else (9, 7)

/-- `dict.get` on an association list. -/
def lookupD (l : List (String × α)) (k : String) (dflt : α) : α :=
  match l.find? (fun p => p.1 = k) with
  | some p => p.2
  | none => dflt

/-- `ComboManager._update_combo_state`: after a card was appended to
`cards_played`, either schedule the first still-unplayed support card at
`current_time + timing_delay`, or mark the combo complete and record its name
(the returned list is what gets appended to `combo_history`). -/
def updateComboState (combo : ActiveCombo) (current_time : ℚ) :
    ActiveCombo × List String :=
  let remaining_support :=
    combo.definition.support_cards.filter (fun card => card ∉ combo.cards_played)
  match remaining_support with
  | next :: _ =>
      ({ combo with expected_next_card := some next,
                    next_card_timing := current_time + combo.definition.timing_delay },
       [])
  | [] =>
      ({ combo with expected_next_card := none, is_complete := true },
       [combo.definition.name])

/-- The loop body of `ComboManager.get_next_combo_action` over the active
list: the first non-complete combo whose deadline has passed and that expects
a card fires; it is updated in place and the iteration stops. -/
def fireFirstCombo (current_time : ℚ) :
    List ActiveCombo → Option (Card × String × (ℤ × ℤ)) × List ActiveCombo × List String
  | [] => (none, [], [])
  | combo :: rest =>
    if combo.is_complete then
      let (r, rest', hist) := fireFirstCombo current_time rest
      (r, combo :: rest', hist)
    else
      match combo.expected_next_card with
      | some card =>
        if combo.next_card_timing ≤ current_time then
          let position_rule := lookupD combo.definition.positioning_rules card.name "default"
          let coordinates := positionCoordinates position_rule
          let combo' := { combo with cards_played := combo.cards_played ++ [card] }
          let (combo'', hist) := updateComboState combo' current_time
          (some (card, position_rule, coordinates), combo'' :: rest, hist)
        else
          let (r, rest', hist) := fireFirstCombo current_time rest
          (r, combo :: rest', hist)
      | none =>
        let (r, rest', hist) := fireFirstCombo current_time rest
        (r, combo :: rest', hist)

/-- `ComboManager.get_next_combo_action`. -/
def ComboManager.getNextComboAction (m : ComboManager) (current_time : ℚ) :
    Option (Card × String × (ℤ × ℤ)) × ComboManager :=
  let (r, combos, hist) := fireFirstCombo current_time m.active_combos
  (r, { m with active_combos := combos, combo_history := m.combo_history ++ hist })

/-! ## Match-state analyzer (`core/game_state.py`)

The raw snapshot (`state`) comes from the external detector; its `numbers`
block can be missing, in which case the attribute chain
`state.numbers.elixir.number` raises `AttributeError`.  The embedding makes
that explicit: `numbers` is an `Option` and `analyze_state` returns
`Except String _`, erroring exactly where the Python attribute access would
raise.  The analyzer's `deck_analyzer` collaborator is represented by the
one value read from it, `get_primary_win_condition()`. -/

/-- `core.game_state.GamePhase`. -/
inductive CorePhase where
  | early | mid | late | overtime
deriving DecidableEq, Repr

/-- `ThreatLevel` enum with its numeric `value`. -/
inductive ThreatLevel where
  | none | low | medium | high | critical
deriving DecidableEq, Repr

/-- `ThreatLevel.value`. -/
def ThreatLevel.val : ThreatLevel → ℤ
  | .none => 0 | .low => 1 | .medium => 2 | .high => 3 | .critical => 4

/-- A detected enemy unit in the snapshot: `name` attribute (may be absent —
`getattr(enemy, 'name', ...)` has a default) and tile position. -/
structure EnemyUnit where
  name : Option String
  tile_x : ℤ
  tile_y : ℤ
deriving DecidableEq, Repr

/-- The slice of the raw snapshot `analyze_state` reads: the enemy list and
the (possibly missing) `numbers.elixir.number` field. -/
structure Snapshot where
  enemies : List EnemyUnit
  elixir : Option ℚ
deriving DecidableEq, Repr

/-- `ThreatInfo` dataclass.  `distance_to_tower` is stored squared (see the
header note on distances). -/
structure ThreatInfo where
  card_name : String
  position : ℤ × ℤ
  threat_level : ThreatLevel
  distance_sq_to_tower : ℚ
  is_targeting_tower : Bool
  requires_immediate_response : Bool
deriving DecidableEq, Repr

/-- `OpportunityInfo` dataclass. -/
structure OpportunityInfo where
  lane : String
  enemy_elixir_deficit : ℤ
  enemy_defenses_down : Bool
  recommended_cards : List String
  confidence : ℚ
deriving DecidableEq, Repr

/-- `GameStateInfo` dataclass. -/
structure GameStateInfo where
  phase : CorePhase
  threats : List ThreatInfo
  opportunities : List OpportunityInfo
  game_mode : String
  our_elixir : ℚ
  enemy_elixir_deficit : ℤ
  should_defend : Bool
  should_attack : Bool
  recommended_strategy : String
deriving DecidableEq, Repr

/-- `GameStateAnalyzer._calculate_distance_to_tower`, squared: the squared
Euclidean distance to the nearer of the towers at (3, 14) and (15, 14).
(`min` commutes with `sqrt` on nonnegatives, so taking the min of the squares
is exact.) -/
def distanceSqToTower (x y : ℤ) : ℚ :=
  min (((x - 3 : ℤ) ^ 2 + (y - 14 : ℤ) ^ 2 : ℤ) : ℚ)
      (((x - 15 : ℤ) ^ 2 + (y - 14 : ℤ) ^ 2 : ℤ) : ℚ)

/-- Does the first character list start the second one? -/
def hasPrefixChars : List Char → List Char → Bool
  | [], _ => true
  | _ :: _, [] => false
  | a :: as, b :: bs => a == b && hasPrefixChars as bs

/-- Does the first character list occur contiguously inside the second? -/
def hasSubChars (needle : List Char) : List Char → Bool
  | [] => hasPrefixChars needle []
  | b :: bs => hasPrefixChars needle (b :: bs) || hasSubChars needle bs

/-- Python `needle in haystack` on strings (substring containment). -/
def strContains (haystack needle : String) : Bool :=
  hasSubChars needle.toList haystack.toList

/-- The high-priority identity list in `_calculate_threat_level`. -/
def highPriorityCards : List String :=
  ["giant", "golem", "hog_rider", "royal_giant", "pekka"]

/-- `GameStateAnalyzer._calculate_threat_level`: distance bands at 3 / 6 / 10
tiles (compared squared: 9 / 36 / 100), escalated when the (lowercased) name
contains a high-priority identity as a substring. -/
def calculateThreatLevel (enemy : EnemyUnit) : ThreatLevel :=
  let distSq := distanceSqToTower enemy.tile_x enemy.tile_y
  let card_name := (enemy.name.getD "").toLower
  let isHigh := highPriorityCards.any fun card => strContains card_name card
  if distSq ≤ 9 then
    if isHigh then .critical else .high
  else if distSq ≤ 36 then
    if isHigh then .high else .medium
  else if distSq ≤ 100 then
    if isHigh then .medium else .low
  else .none

/-- `GameStateAnalyzer._is_targeting_tower`. -/
def isTargetingTower (enemy : EnemyUnit) : Bool :=
  10 ≤ enemy.tile_y

/-- `GameStateAnalyzer._analyze_threats`: one `ThreatInfo` per enemy with a
non-`NONE` level, sorted by descending threat level (stable sort). -/
def analyzeThreats (state : Snapshot) : List ThreatInfo :=
  let threats := state.enemies.filterMap fun enemy =>
    let threat_level := calculateThreatLevel enemy
    if threat_level ≠ .none then
      some { card_name := enemy.name.getD "Unknown"
             position := (enemy.tile_x, enemy.tile_y)
             threat_level := threat_level
             distance_sq_to_tower := distanceSqToTower enemy.tile_x enemy.tile_y
             is_targeting_tower := isTargetingTower enemy
             requires_immediate_response := 3 ≤ threat_level.val }
    else none
  pySortStable (fun a b => b.threat_level.val ≤ a.threat_level.val) threats

/-- `GameStateAnalyzer._estimate_enemy_elixir_deficit`: board occupancy as a
proxy (0 units ⇒ 6, 1 unit ⇒ 3, 2+ units ⇒ 1). -/
def estimateEnemyElixirDeficit (state : Snapshot) : ℤ :=
  match state.enemies.length with
  | 0 => 6
  | 1 => 3
  | _ => 1

/-- `GameStateAnalyzer._analyze_opportunities`: a counter-attack opportunity
when the estimated deficit is ≥ 4 and the deck has a primary win condition. -/
def analyzeOpportunities (winCondition : Option Card) (state : Snapshot) :
    List OpportunityInfo :=
  let enemy_deficit := estimateEnemyElixirDeficit state
  if 4 ≤ enemy_deficit then
    match winCondition with
    | some wc =>
        [{ lane := if state.enemies.length = 0 ∨
                      state.enemies.any (fun e => e.tile_x ≤ 9)
                   then "right" else "left"
           enemy_elixir_deficit := enemy_deficit
           enemy_defenses_down := state.enemies.length = 0
           recommended_cards := [wc.name]
           confidence := min 0.9 ((enemy_deficit : ℚ) / 6) }]
    | none => []
  else []

/-- `GameStateAnalyzer._determine_game_phase` (elixir as a proxy for time). -/
def determineGamePhase (elixir : ℚ) : CorePhase :=
  if elixir ≤ 6 then .early
  else if elixir ≤ 8 then .mid
  else .late

/-- `GameStateAnalyzer._determine_game_mode`. -/
def determineGameMode (elixir : ℚ) (threats : List ThreatInfo)
    (opportunities : List OpportunityInfo) : String :=
  let critical_threats := threats.filter fun t => t.threat_level = .critical
  let high_threats := threats.filter fun t => t.threat_level = .high
  if critical_threats ≠ [] then "EMERGENCY_DEFENSE"
  else if high_threats ≠ [] then "ACTIVE_DEFENSE"
  else if opportunities ≠ [] ∧ 6 ≤ elixir then "ATTACK"
  else if 9 ≤ elixir then "FORCED_ATTACK"
  else "NEUTRAL"

/-- Python `str.upper()`: `String.toUpper` re-expressed through the
character list so that it reduces inside the kernel (identical action on the
ASCII names involved). -/
def pyUpper (s : String) : String :=
  ⟨s.data.map Char.toUpper⟩

/-- The final elixir branches of `_get_recommended_strategy`. -/
def strategyTail (elixir : ℚ) : String :=
  if 9 ≤ elixir then "CYCLE_CARDS" else "WAIT_AND_REACT"

/-- The opportunity branch of `_get_recommended_strategy`. -/
def strategyRest (opportunities : List OpportunityInfo) (elixir : ℚ) : String :=
  match opportunities with
  | o :: _ =>
    if 7 ≤ elixir then "ATTACK_" ++ o.lane.toUpper ++ "_LANE"
    else strategyTail elixir
  | [] => strategyTail elixir

/-- `GameStateAnalyzer._get_recommended_strategy`. -/
def getRecommendedStrategy (threats : List ThreatInfo)
    (opportunities : List OpportunityInfo) (elixir : ℚ) : String :=
  match threats with
  | t :: _ =>
    if 3 ≤ t.threat_level.val then "DEFEND_AGAINST_" ++ pyUpper t.card_name
    else strategyRest opportunities elixir
  | [] => strategyRest opportunities elixir

/-- `GameStateAnalyzer.analyze_state`.  Reads
`state.numbers.elixir.number`; a missing `numbers` block surfaces as an
`AttributeError`, i.e. `.error` here. -/
def analyzeState (winCondition : Option Card) (state : Snapshot) :
    Except String GameStateInfo :=
  match state.elixir with
  | none => .error "AttributeError: numbers"
  | some elixir =>
    let threats := analyzeThreats state
    let opportunities := analyzeOpportunities winCondition state
    let enemy_elixir_deficit := estimateEnemyElixirDeficit state
    .ok
      { phase := determineGamePhase elixir
        threats := threats
        opportunities := opportunities
        game_mode := determineGameMode elixir threats opportunities
        our_elixir := elixir
        enemy_elixir_deficit := enemy_elixir_deficit
        should_defend := (threats.filter fun t => 2 ≤ t.threat_level.val) ≠ []
        should_attack := opportunities.length > 0 ∧ 3 ≤ enemy_elixir_deficit
        recommended_strategy := getRecommendedStrategy threats opportunities elixir }

/-! ## Phase controller (`advanced_systems/phase_control.py`) -/

/-- `advanced_systems.phase_control.GamePhase`. -/
inductive GamePhase where
  | earlyGame | midGame | lateGame | overtime | suddenDeath
deriving DecidableEq, Repr

/-- `PhaseStrategy` enum. -/
inductive PhaseStrategy where
  | conservative | balanced | aggressive | allIn | defensive
deriving DecidableEq, Repr

/-- `PhasePriority` enum. -/
inductive PhasePriority where
  | elixirAdvantage | towerDamage | cycleControl | defensiveSetup
  | spellCycling | pressureMaintain
deriving DecidableEq, Repr

/-- `PhaseConfiguration` dataclass. -/
structure PhaseConfiguration where
  phase : GamePhase
  strategy : PhaseStrategy
  priorities : List PhasePriority
  aggression_level : ℚ
  elixir_spending_rate : ℚ
  combo_frequency : ℚ
  risk_tolerance : ℚ
  card_value_modifiers : List (String × ℚ)
  timing_modifiers : List (String × ℚ)
  position_modifiers : List (String × ℚ)
deriving DecidableEq, Repr

/-- The `tower_states` dictionary of `PhaseController`. -/
structure TowerStates where
  our_left : ℤ
  our_right : ℤ
  our_king : ℤ
  enemy_left : ℤ
  enemy_right : ℤ
  enemy_king : ℤ
deriving DecidableEq, Repr

/-- `PhaseController._initialize_phase_configurations()[EARLY_GAME]`. -/
def earlyGameConfig : PhaseConfiguration :=
  { phase := .earlyGame
    strategy := .conservative
    priorities := [.elixirAdvantage, .defensiveSetup, .cycleControl]
    aggression_level := 0.3
    elixir_spending_rate := 0.6
    combo_frequency := 0.4
    risk_tolerance := 0.2
    card_value_modifiers := [("cheap_cards", 1.2), ("expensive_cards", 0.8),
                             ("defensive_cards", 1.1)]
    timing_modifiers := [("combo_delay", 1.3), ("reaction_time", 1.2)]
    position_modifiers := [("defensive_bias", 1.2), ("aggressive_bias", 0.8)] }

/-- `PhaseController._initialize_phase_configurations()[MID_GAME]`. -/
def midGameConfig : PhaseConfiguration :=
  { phase := .midGame
    strategy := .balanced
    priorities := [.towerDamage, .pressureMaintain, .elixirAdvantage]
    aggression_level := 0.6
    elixir_spending_rate := 0.8
    combo_frequency := 0.7
    risk_tolerance := 0.5
    card_value_modifiers := [("combo_cards", 1.2), ("win_conditions", 1.3)]
    timing_modifiers := [("combo_delay", 1.0), ("reaction_time", 1.0)]
    position_modifiers := [("balanced_approach", 1.0)] }

/-- `PhaseController._initialize_phase_configurations()[LATE_GAME]`. -/
def lateGameConfig : PhaseConfiguration :=
  { phase := .lateGame
    strategy := .aggressive
    priorities := [.towerDamage, .spellCycling, .pressureMaintain]
    aggression_level := 0.8
    elixir_spending_rate := 0.9
    combo_frequency := 0.8
    risk_tolerance := 0.7
    card_value_modifiers := [("damage_spells", 1.4), ("win_conditions", 1.5),
                             ("defensive_cards", 0.9)]
    timing_modifiers := [("combo_delay", 0.8), ("reaction_time", 0.9)]
    position_modifiers := [("aggressive_bias", 1.3), ("defensive_bias", 0.8)] }

/-- `PhaseController._initialize_phase_configurations()[OVERTIME]`. -/
def overtimeConfig : PhaseConfiguration :=
  { phase := .overtime
    strategy := .allIn
    priorities := [.towerDamage, .spellCycling]
    aggression_level := 1.0
    elixir_spending_rate := 1.0
    combo_frequency := 0.9
    risk_tolerance := 0.9
    card_value_modifiers := [("damage_spells", 1.6), ("win_conditions", 1.7),
                             ("defensive_cards", 0.6)]
    timing_modifiers := [("combo_delay", 0.6), ("reaction_time", 0.7)]
    position_modifiers := [("aggressive_bias", 1.5), ("all_in_approach", 1.3)] }

/-- The full initial configuration table. -/
def initialPhaseConfigurations : List (GamePhase × PhaseConfiguration) :=
  [(.earlyGame, earlyGameConfig), (.midGame, midGameConfig),
   (.lateGame, lateGameConfig), (.overtime, overtimeConfig)]

/-- The pure time-threshold part of `_determine_current_phase` (the
`base_phase` bands: early before 60 s, mid before 180 s, late before 300 s,
overtime at or past 300 s). -/
def basePhase (game_time : ℚ) : GamePhase :=
  if game_time < 60 then .earlyGame
  else if game_time < 180 then .midGame
  else if game_time < 300 then .lateGame
  else .overtime

/-- The minimum taken in `_determine_current_phase`: the four princess
towers (the king towers are not consulted). -/
def minPrincessTowerHp (towers : TowerStates) : ℤ :=
  min (min towers.our_left towers.our_right)
      (min towers.enemy_left towers.enemy_right)

/-- `PhaseController._determine_current_phase`.  The `elixir_trends` block in
the source computes an average and then does nothing (`pass`), so it does not
appear here. -/
def determineCurrentPhase (game_time : ℚ) (towers : TowerStates) : GamePhase :=
  let base_phase := basePhase game_time
  let min_tower_hp := minPrincessTowerHp towers
  if min_tower_hp < 500 ∧ base_phase = .midGame then .lateGame
  else if min_tower_hp < 200 then .overtime
  else base_phase

/-- `dict[k] = v` on an association list: overwrite in place or append. -/
def setKey (l : List (String × ℚ)) (k : String) (v : ℚ) : List (String × ℚ) :=
  if l.any (fun p => p.1 = k) then
    l.map fun p => if p.1 = k then (k, v) else p
  else l ++ [(k, v)]

/-- `PhaseController._apply_transition_action`: the named transition actions
that mutate the current phase's configuration. -/
def applyTransitionAction (action : String) (config : PhaseConfiguration) :
    PhaseConfiguration :=
  if action = "increase_aggression" then
    { config with aggression_level := min 1.0 (config.aggression_level + 0.2) }
  else if action = "enable_combo_system" then
    { config with combo_frequency := min 1.0 (config.combo_frequency + 0.3) }
  else if action = "prioritize_tower_damage" then
    let mods := setKey config.card_value_modifiers "damage_spells" 1.4
    { config with card_value_modifiers := setKey mods "win_conditions" 1.5 }
  else if action = "maximum_aggression" then
    { config with aggression_level := 1.0, risk_tolerance := 1.0 }
  else if action = "spell_cycle_priority" then
    if PhasePriority.spellCycling ∈ config.priorities then config
    else { config with priorities := .spellCycling :: config.priorities }
  else config

/-- `PhaseController._apply_dynamic_adaptations`: nudge aggression and risk
up when the recent-action success rate exceeds 0.7, down when it is below
0.3, clamped to [0.1, 1.0] on each side. -/
def applyDynamicAdaptations (recent_actions : List String)
    (config : PhaseConfiguration) : PhaseConfiguration :=
  let success_indicators := ["tower_damage", "successful_defense",
                             "elixir_advantage_gained"]
  let success_count := (recent_actions.filter (· ∈ success_indicators)).length
  if recent_actions.length > 0 then
    let success_rate : ℚ := (success_count : ℚ) / (recent_actions.length : ℚ)
    if success_rate > 0.7 then
      { config with aggression_level := min 1.0 (config.aggression_level + 0.1),
                    risk_tolerance := min 1.0 (config.risk_tolerance + 0.1) }
    else if success_rate < 0.3 then
      { config with aggression_level := max 0.1 (config.aggression_level - 0.1),
                    risk_tolerance := max 0.1 (config.risk_tolerance - 0.1) }
    else config
  else config

/-- One phase's step of `PhaseController.optimize_phase_configurations`:
with at least 10 recorded scores, a high average nudges aggression up, a low
one nudges aggression and risk down, clamped to [0.1, 1.0]. -/
def optimizeStep (scores : List ℚ) (config : PhaseConfiguration) :
    PhaseConfiguration :=
  if 10 ≤ scores.length then
    let avg_score := scores.sum / (scores.length : ℚ)
    if avg_score > 0.7 then
      { config with aggression_level := min 1.0 (config.aggression_level + 0.05) }
    else if avg_score < 0.3 then
      { config with aggression_level := max 0.1 (config.aggression_level - 0.1),
                    risk_tolerance := max 0.1 (config.risk_tolerance - 0.1) }
    else config
  else config

/-- Any of the adaptive updates a `PhaseConfiguration` can undergo during a
session: a phase-transition action, a dynamic adaptation from recent action
outcomes, or a performance-based optimization pass. -/
inductive ConfigUpdate where
  | transition (action : String)
  | dynamic (recent_actions : List String)
  | optimize (scores : List ℚ)
deriving DecidableEq, Repr

/-- Apply one `ConfigUpdate`. -/
def applyConfigUpdate (config : PhaseConfiguration) : ConfigUpdate → PhaseConfiguration
  | .transition action => applyTransitionAction action config
  | .dynamic recent => applyDynamicAdaptations recent config
  | .optimize scores => optimizeStep scores config

/-- The claimed invariant: aggression and risk both stay within [0.1, 1.0]. -/
def configInBounds (config : PhaseConfiguration) : Prop :=
  0.1 ≤ config.aggression_level ∧ config.aggression_level ≤ 1.0 ∧
  0.1 ≤ config.risk_tolerance ∧ config.risk_tolerance ≤ 1.0

instance (config : PhaseConfiguration) : Decidable (configInBounds config) := by
  unfold configInBounds; infer_instance

/-! ## Proactive defense (`advanced_systems/proactive_defense.py`) -/

/-- `ProactiveDefenseManager._initialize_counter_database`: the seeded
(threat → [(counter, effectiveness)]) table. -/
def initialCounterDatabase : List (Card × List (Card × ℚ)) :=
  [ (.giant, [(.infernoTower, 0.9), (.minipekka, 0.8), (.pekka, 0.85),
              (.cannon, 0.6), (.tesla, 0.7)]),
    (.golem, [(.infernoTower, 0.95), (.pekka, 0.9), (.minipekka, 0.7),
              (.infernoDragon, 0.8)]),
    (.pekka, [(.skeletonArmy, 0.8), (.minionHorde, 0.85), (.infernoTower, 0.9),
              (.infernoDragon, 0.8)]),
    (.hogRider, [(.cannon, 0.9), (.tesla, 0.85), (.tombstone, 0.8),
                 (.minipekka, 0.7), (.valkyrie, 0.6)]),
    (.balloon, [(.musketeer, 0.9), (.archers, 0.8), (.tesla, 0.85),
                (.infernoTower, 0.7), (.minions, 0.75)]),
    (.lavaHound, [(.musketeer, 0.8), (.archers, 0.7), (.tesla, 0.75),
                  (.infernoDragon, 0.6)]),
    (.minionHorde, [(.arrows, 0.95), (.zap, 0.8), (.fireball, 0.9),
                    (.wizard, 0.85)]),
    (.skeletonArmy, [(.zap, 0.95), (.theLog, 0.9), (.arrows, 0.85),
                     (.valkyrie, 0.8)]),
    (.goblinGang, [(.zap, 0.9), (.theLog, 0.95), (.arrows, 0.8),
                   (.valkyrie, 0.75)]),
    (.xBow, [(.rocket, 0.9), (.lightning, 0.85), (.giant, 0.8),
             (.golem, 0.75)]),
    (.mortar, [(.rocket, 0.85), (.miner, 0.8), (.hogRider, 0.75)]) ]

/-- The slice of `ProactiveDefenseManager` state that
`adapt_defenses_based_on_success` touches: the per-pair rolling outcome
windows (`defense_success_rates`, keyed by `"<defense>_vs_<threat>"`) and the
mutable counter database. -/
structure DefenseAdaptState where
  defense_success_rates : List (String × List Bool)
  counter_database : List (Card × List (Card × ℚ))
deriving DecidableEq, Repr

/-- Fresh `ProactiveDefenseManager` adaptation state. -/
def DefenseAdaptState.init : DefenseAdaptState :=
  { defense_success_rates := [], counter_database := initialCounterDatabase }

/-- `dict.get`-style lookup on a card-keyed association list. -/
def lookupCard (l : List (Card × α)) (k : Card) : Option α :=
  (l.find? fun p => p.1 = k).map (·.2)

/-- Python `sum(bools) / len(bools)` (`True` counts as 1). -/
def successRate (window : List Bool) : ℚ :=
  ((window.filter id).length : ℚ) / (window.length : ℚ)

/-- The inner loop of `adapt_defenses_based_on_success`: replace the
effectiveness of the first entry whose counter matches the used defense by
`0.8 · old + 0.2 · success_rate`, leaving everything else unchanged. -/
def updateCounterEntries (defense : Card) (rate : ℚ) :
    List (Card × ℚ) → List (Card × ℚ)
  | [] => []
  | (counter, effectiveness) :: rest =>
    if counter = defense then
      (counter, effectiveness * 0.8 + rate * 0.2) :: rest
    else
      (counter, effectiveness) :: updateCounterEntries defense rate rest

/-- `dict[k] = v` on the rolling-window association list. -/
def setBoolKey (l : List (String × List Bool)) (k : String) (v : List Bool) :
    List (String × List Bool) :=
  if l.any (fun p => p.1 = k) then
    l.map fun p => if p.1 = k then (k, v) else p
  else l ++ [(k, v)]

/-- The rolling-outcome window of `adapt_defenses_based_on_success` after
appending the new outcome and trimming to the last 10 entries. -/
def rollingWindow (s : DefenseAdaptState) (defense_used threat_faced : Card)
    (success : Bool) : List Bool :=
  let combo_key := defense_used.name ++ "_vs_" ++ threat_faced.name
  let window₀ := (lookupD s.defense_success_rates combo_key []) ++ [success]
  if 10 < window₀.length then window₀.drop (window₀.length - 10) else window₀

/-- `ProactiveDefenseManager.adapt_defenses_based_on_success`: append the
outcome to the pair's rolling window (trimmed to the last 10 entries), then
rewrite the stored effectiveness of the used (threat, counter) pair using the
window's success rate. -/
def adaptDefenses (s : DefenseAdaptState) (defense_used threat_faced : Card)
    (success : Bool) : DefenseAdaptState :=
  let combo_key := defense_used.name ++ "_vs_" ++ threat_faced.name
  let window := rollingWindow s defense_used threat_faced success
  let rates := setBoolKey s.defense_success_rates combo_key window
  match lookupCard s.counter_database threat_faced with
  | none => { s with defense_success_rates := rates }
  | some entries =>
    let rate := successRate window
    let database := s.counter_database.map fun p =>
      if p.1 = threat_faced then (p.1, updateCounterEntries defense_used rate entries)
      else p
    { defense_success_rates := rates, counter_database := database }

/-- Read the stored effectiveness for (threat, counter). -/
def storedEffectiveness (s : DefenseAdaptState) (threat counter : Card) : Option ℚ :=
  (lookupCard s.counter_database threat).bind fun entries =>
    (entries.find? fun p => p.1 = counter).map (·.2)

/-! ## Deck loading and session-start validation
(`deck_manager.py` and `bot/bot.py`)

`DeckManager.get_deck_actions` resolves a configured deck (a list of action
class names) against the `ACTION_MAPPING` table built from the actions
package; the decks table and the mapping are runtime configuration, so they
are parameters here.  `Bot.__init__` then checks the resulting card list's
length.  -/

/-- One configured deck in `decks.yaml`. -/
structure DeckData where
  name : String
  description : String
  cards : List String
deriving DecidableEq, Repr

/-- `DeckManager.get_deck_actions`: raise if the deck id is unknown, then
resolve every configured card name through `ACTION_MAPPING`, raising on the
first unknown name.  (There is no size or duplicate check here.) -/
def getDeckActions (decks : List (String × DeckData)) (actionMapping : List String)
    (deck_id : String) : Except String (List String) :=
  match (decks.find? fun p => p.1 = deck_id).map (·.2) with
  | none => .error ("Deck '" ++ deck_id ++ "' nao encontrado")
  | some deck_data =>
    deck_data.cards.mapM fun card_name =>
      if card_name ∈ actionMapping then .ok card_name
      else .error ("Acao '" ++ card_name ++ "' nao encontrada")

/-- The deck validation in `Bot.__init__`
(`bot/bot.py`, `if len(cards) != 8: raise WikifiedError("005", ...)`);
`cards` is the list of `action.CARD` attributes, duplicates included. -/
def botDeckCheck (cards : List String) : Except String Unit :=
  if cards.length ≠ 8 then
    .error ("005: Must provide 8 cards but " ++ toString cards.length ++ " was given")
  else .ok ()

/-! ## Integration controller (`advanced_systems/master_integration.py`)

The controller merges per-track recommendation lists.  The tracks read the
engine's own game state plus the outputs of collaborating subsystems
(proactive defense, elixir controller, dynamic timing, intelligent
positioning); those collaborator outputs are parameters of the embedding
(`TrackInputs`), so every theorem below quantifies over them. -/

/-- `master_integration.ActionRecommendation`. -/
structure ActionRecommendation where
  action_type : String
  card : Option Card
  position : Option (ℤ × ℤ)
  confidence : ℚ
  reasoning : List String
  priority : ℤ
  timing_delay : ℚ
deriving DecidableEq, Repr

/-- A unit on the field (`intelligent_positioning.UnitInfo`): identity, side
and board position. -/
structure UnitInfo where
  card : Card
  is_enemy : Bool
  pos_x : ℚ
  pos_y : ℚ
deriving DecidableEq, Repr

/-- The fields of `master_integration.GameState` the recommendation tracks
read. -/
structure MasterGameState where
  our_elixir : ℤ
  our_hand : List Card
  units_on_field : List UnitInfo
deriving DecidableEq, Repr

/-- One entry of `defense_manager.get_defense_recommendations()`'s
`immediate_threats` list (the fields `_get_defense_recommendations` reads). -/
structure ThreatEntry where
  card : String
  confidence : ℚ
  time_to_threat : ℚ
  threat_level : String
deriving DecidableEq, Repr

/-- One entry of `elixir_controller.get_elixir_recommendations()`'s
`opportunities` list. -/
structure OppEntry where
  otype : String
  confidence : ℚ
deriving DecidableEq, Repr

/-- The named card identities of the catalog (every constructor except the
`other` escape hatch); used to model `getattr(Cards, name, None)`. -/
def cardCatalog : List Card :=
  [.giant, .musketeer, .bomber, .hogRider, .iceSpirit, .golem, .nightWitch,
   .babyDragon, .xBow, .tesla, .lavaHound, .balloon, .knight, .archers,
   .skeletons, .spearGoblins, .cannon, .minipekka, .infernoTower, .pekka,
   .tombstone, .zap, .arrows, .valkyrie, .skeletonArmy, .wizard, .fireball,
   .iceGolem, .poison, .lightning, .rocket, .electroGiant, .megaKnight,
   .bats, .goblins, .healSpirit, .theLog, .infernoDragon, .minions,
   .minionHorde, .goblinGang, .mortar, .miner, .goblinBarrel, .princess]

/-- `getattr(Cards, threat_card_name, None)` with an upper-case attribute
name (upstream attribute names are the upper-cased card names). -/
def getattrCards (attr : String) : Option Card :=
  cardCatalog.find? fun c => pyUpper c.name = attr

/-- `MasterBotController._is_good_counter`: the small hard-coded counter
table. -/
def isGoodCounter (our_card enemy_card : Card) : Bool :=
  let counters : List (Card × List Card) :=
    [(.giant, [.infernoTower, .minipekka, .pekka]),
     (.hogRider, [.cannon, .tesla, .tombstone]),
     (.balloon, [.musketeer, .archers, .tesla]),
     (.skeletonArmy, [.zap, .arrows, .valkyrie])]
  our_card ∈ (lookupCard counters enemy_card).getD []

/-- `MasterBotController._is_attack_card`. -/
def isAttackCard (card : Card) : Bool :=
  card ∈ [Card.giant, Card.hogRider, Card.balloon, Card.pekka]

/-- `MasterBotController._is_support_card`. -/
def isSupportCard (card : Card) : Bool :=
  card ∈ [Card.musketeer, Card.wizard, Card.archers]

/-- Squared distance between two units (`Position.distance_to`, squared —
see the header note on distances). -/
def unitDistSq (a b : UnitInfo) : ℚ :=
  (a.pos_x - b.pos_x) ^ 2 + (a.pos_y - b.pos_y) ^ 2

/-- `MasterBotController._needs_support`: tanks with no allied Musketeer or
Wizard within 4 tiles (compared squared: 16) need support. -/
def needsSupport (unit : UnitInfo) (all_units : List UnitInfo) : Bool :=
  if unit.card ∈ [Card.giant, Card.golem] then
    (all_units.filter fun u =>
      ¬u.is_enemy ∧ unitDistSq u unit < 16 ∧
        u.card ∈ [Card.musketeer, Card.wizard]).length = 0
  else false

/-- The collaborator outputs consumed by the tracks: the defense manager's
immediate threats, the elixir controller's opportunity list, spending advice
and `should_spend_elixir_now` verdicts, the timing manager's per-combo
confidence and `calculate_optimal_timing` verdicts, and the positioning
system's primary position per (card, context). -/
structure TrackInputs where
  threats : List ThreatEntry
  opportunities : List OppEntry
  urgency : String
  spending_reason : String
  shouldSpend : Card → Bool × String
  comboConfidence : String → ℚ
  execInfo : String → Bool × ℚ
  posOracle : Card → String → ℤ × ℤ

/-- `MasterBotController._get_defense_recommendations`: for each immediate
threat with confidence above 0.6, recommend the first hand card countering
it (no affordability check appears here). -/
def getDefenseRecommendations (threats : List ThreatEntry) (hand : List Card)
    (posOracle : Card → String → ℤ × ℤ) : List ActionRecommendation :=
  threats.flatMap fun threat =>
    if threat.confidence > 0.6 then
      match getattrCards (pyUpper threat.card) with
      | none => []
      | some threat_card =>
        match hand.find? (fun card => isGoodCounter card threat_card) with
        | none => []
        | some card =>
          [{ action_type := "defend"
             card := some card
             position := some (posOracle card "defense")
             confidence := threat.confidence * 0.9
             reasoning := ["Counter " ++ threat.card ++ " threat",
                           "Threat level: " ++ threat.threat_level]
             priority := if threat.threat_level = "HIGH" then 5 else 4
             timing_delay := max 0 (threat.time_to_threat - 1.0) }]
    else []

/-- `MasterBotController._get_attack_recommendations`: for each
counter-attack / heavy-push opportunity, recommend every attack card in hand
that the elixir controller agrees to spend on. -/
def getAttackRecommendations (opportunities : List OppEntry) (hand : List Card)
    (shouldSpend : Card → Bool × String) (posOracle : Card → String → ℤ × ℤ) :
    List ActionRecommendation :=
  opportunities.flatMap fun opportunity =>
    if opportunity.otype ∈ ["counter_attack", "heavy_push"] then
      hand.flatMap fun card =>
        if isAttackCard card then
          let (should_spend, reason) := shouldSpend card
          if should_spend then
            [{ action_type := "attack"
               card := some card
               position := some (posOracle card "attack")
               confidence := opportunity.confidence
               reasoning := ["Attack opportunity: " ++ opportunity.otype, reason]
               priority := if opportunity.otype = "heavy_push" then 4 else 3
               timing_delay := 0.5 }]
          else []
        else []
    else []

/-- Python `min(l, key=f)` (first element with minimal key), on a nonempty
list; on `[]` it is a `ValueError`, returned as `none`. -/
def pyMinBy (f : Card → ℤ) : List Card → Option Card
  | [] => none
  | x :: xs =>
    match pyMinBy f xs with
    | none => some x
    | some y => if f y < f x then some y else some x

/-- `MasterBotController._get_elixir_recommendations`: at elixir ≥ 9,
recommend cycling the cheapest hand card of estimated cost ≤ 3 (if any);
otherwise, under low spending urgency, recommend waiting. -/
def getElixirRecommendations (our_elixir : ℤ) (hand : List Card)
    (urgency : String) (spending_reason : String)
    (posOracle : Card → String → ℤ × ℤ) : List ActionRecommendation :=
  if 9 ≤ our_elixir then
    let cheap_cards := hand.filter fun card => estimateCardCost card ≤ 3
    match pyMinBy estimateCardCost cheap_cards with
    | none => []
    | some best_cheap =>
      [{ action_type := "cycle"
         card := some best_cheap
         position := some (posOracle best_cheap "neutral")
         confidence := 0.9
         reasoning := ["Prevent elixir leak", "Elixir at " ++ toString our_elixir]
         priority := 4
         timing_delay := 0.0 }]
  else if urgency = "low" then
    [{ action_type := "wait"
       card := none
       position := none
       confidence := 0.7
       reasoning := ["Conservative elixir strategy", spending_reason]
       priority := 2
       timing_delay := 2.0 }]
  else []

/-- `MasterBotController._get_positioning_recommendations`: support every
allied unit that needs it with the first support card in hand. -/
def getPositioningRecommendations (units : List UnitInfo) (hand : List Card)
    (posOracle : Card → String → ℤ × ℤ) : List ActionRecommendation :=
  (units.filter fun unit => ¬unit.is_enemy).flatMap fun unit =>
    if needsSupport unit units then
      match hand.filter isSupportCard with
      | [] => []
      | best_support :: _ =>
        [{ action_type := "support"
           card := some best_support
           position := some (posOracle best_support "support")
           confidence := 0.6
           reasoning := ["Support " ++ unit.card.name, "Improve positioning"]
           priority := 3
           timing_delay := 1.0 }]
    else []

/-- One entry of `DynamicTimingManager.combo_timings`: the fields
`get_available_combos` copies into its result. -/
structure ComboTiming where
  combo_name : String
  cards : List Card
  base_delay : ℚ
deriving DecidableEq, Repr

/-- `DynamicTimingManager._initialize_combo_timings`: the static card lists
and base delays of the five known combos. -/
def comboTimings : List ComboTiming :=
  [ { combo_name := "giant_musketeer", cards := [.giant, .musketeer], base_delay := 1.5 },
    { combo_name := "hog_ice_spirit", cards := [.hogRider, .iceSpirit], base_delay := 0.3 },
    { combo_name := "golem_night_witch", cards := [.golem, .nightWitch], base_delay := 2.0 },
    { combo_name := "lava_balloon", cards := [.lavaHound, .balloon], base_delay := 3.0 },
    { combo_name := "goblin_barrel_princess", cards := [.princess, .goblinBarrel], base_delay := 1.0 } ]

/-- A combo offered by `DynamicTimingManager.get_available_combos`. -/
structure TimingCombo where
  name : String
  cards : List Card
  confidence : ℚ
  base_delay : ℚ
deriving DecidableEq, Repr

/-- `DynamicTimingManager.get_available_combos`: combos whose card sets are
entirely in hand, with a context/success-rate dependent confidence
(abstracted as `confOf`), sorted by descending confidence. -/
def getAvailableCombos (hand : List Card) (confOf : String → ℚ) :
    List TimingCombo :=
  let available := comboTimings.filterMap fun ct =>
    if ct.cards.all (· ∈ hand) then
      some { name := ct.combo_name, cards := ct.cards,
             confidence := confOf ct.combo_name, base_delay := ct.base_delay }
    else none
  pySortStable (fun a b => b.confidence ≤ a.confidence) available

/-- `MasterBotController._get_timing_recommendations`: for each available
combo with confidence above 0.7 whose optimal-timing check passes, recommend
the combo's first card. -/
def getTimingRecommendations (hand : List Card) (confOf : String → ℚ)
    (execInfo : String → Bool × ℚ) (posOracle : Card → String → ℤ × ℤ) :
    List ActionRecommendation :=
  (getAvailableCombos hand confOf).flatMap fun combo =>
    if combo.confidence > 0.7 then
      let (should_execute, delay) := execInfo combo.name
      if should_execute then
        match combo.cards with
        | [] => []
        | first_card :: _ =>
          [{ action_type := "combo"
             card := some first_card
             position := some (posOracle first_card "attack")
             confidence := combo.confidence
             reasoning := ["Execute " ++ combo.name ++ " combo",
                           "Optimal timing window"]
             priority := 4
             timing_delay := delay }]
      else []
    else []

/-- `MasterBotController._generate_all_recommendations`: the five
category-tagged track outputs, in dictionary insertion order. -/
def generateAllRecommendations (state : MasterGameState) (inp : TrackInputs) :
    List (String × List ActionRecommendation) :=
  [("defense", getDefenseRecommendations inp.threats state.our_hand inp.posOracle),
   ("attack", getAttackRecommendations inp.opportunities state.our_hand
      inp.shouldSpend inp.posOracle),
   ("elixir", getElixirRecommendations state.our_elixir state.our_hand
      inp.urgency inp.spending_reason inp.posOracle),
   ("positioning", getPositioningRecommendations state.units_on_field
      state.our_hand inp.posOracle),
   ("timing", getTimingRecommendations state.our_hand inp.comboConfidence
      inp.execInfo inp.posOracle)]

/-- The controller's `system_weights` dictionary (initial values). -/
def systemWeights : List (String × ℚ) :=
  [("enemy_prediction", 0.2), ("timing_optimization", 0.2),
   ("defense_priority", 0.25), ("elixir_control", 0.2), ("positioning", 0.15)]

/-- `self.system_weights.get(category, 1.0)`.  Note that of the five track
category tags only `"positioning"` is actually a key of `system_weights`, so
every other track is weighted 1.0. -/
def categoryWeight (category : String) : ℚ :=
  lookupD systemWeights category 1.0

/-- The explicit wait action `_integrate_recommendations` returns when no
track produced anything. -/
def noRecommendationWait : ActionRecommendation :=
  { action_type := "wait", card := none, position := none, confidence := 0.5,
    reasoning := ["No recommendations available"], priority := 1,
    timing_delay := 1.0 }

/-- `PhaseController.calculate_timing_modifier`. -/
def calculateTimingModifier (config : PhaseConfiguration) (action_type : String) : ℚ :=
  let timing_modifiers : List (String × ℚ) :=
    [("combo_execution", lookupD config.timing_modifiers "combo_delay" 1.0),
     ("defensive_reaction", lookupD config.timing_modifiers "reaction_time" 1.0),
     ("spell_timing", lookupD config.timing_modifiers "spell_delay" 1.0),
     ("counter_attack", lookupD config.timing_modifiers "counter_delay" 1.0)]
  lookupD timing_modifiers action_type 1.0

/-- Python's stable `sort(key=lambda x: (x.priority, x.confidence),
reverse=True)`: `a` stays before `b` iff its key is lexicographically
greater-or-equal (stability keeps the original order on ties). -/
def recSortTotal (a b : ActionRecommendation) : Bool :=
  b.priority < a.priority ∨ (a.priority = b.priority ∧ b.confidence ≤ a.confidence)

/-- `MasterBotController._integrate_recommendations`: weight every
recommendation by its category, pick the (priority, confidence)-maximal one,
then scale its confidence by phase aggression (attack) or its mirror
(defend) and its delay by the phase timing modifier. -/
def integrateRecommendations (config : PhaseConfiguration)
    (recommendations : List (String × List ActionRecommendation)) :
    ActionRecommendation :=
  let all_recommendations := recommendations.flatMap fun p =>
    p.2.map fun rec => { rec with confidence := rec.confidence * categoryWeight p.1 }
  match pySortStable recSortTotal all_recommendations with
  | [] => noRecommendationWait
  | best_rec :: _ =>
    let conf :=
      if best_rec.action_type = "attack" then
        best_rec.confidence * config.aggression_level
      else if best_rec.action_type = "defend" then
        best_rec.confidence * (2.0 - config.aggression_level)
      else best_rec.confidence
    let delay :=
      if best_rec.card.isSome then
        best_rec.timing_delay * calculateTimingModifier config best_rec.action_type
      else best_rec.timing_delay
    { best_rec with confidence := conf, timing_delay := delay }

/-- `_generate_all_recommendations` followed by
`_integrate_recommendations` (the cache-miss path of `get_best_action`). -/
def computeBestAction (config : PhaseConfiguration) (state : MasterGameState)
    (inp : TrackInputs) : ActionRecommendation :=
  integrateRecommendations config (generateAllRecommendations state inp)

/-! ### The recommendation cache of `get_best_action` -/

/-- The cache-relevant state of `MasterBotController`: the current game
state, the `best_action` entry of `cached_recommendations`, and the cache
timestamp (`cache_duration` is the constant 1.0). -/
structure MasterCacheState where
  currentGameState : Option MasterGameState
  cachedBest : Option ActionRecommendation
  cacheTimestamp : ℚ
deriving DecidableEq, Repr

/-- The wait action `get_best_action` returns when no game state exists. -/
def noGameStateWait : ActionRecommendation :=
  { action_type := "wait", card := none, position := none, confidence := 0.0,
    reasoning := ["No game state available"], priority := 1, timing_delay := 1.0 }

/-- `MasterBotController.get_best_action`, parameterized by the computation
performed on a cache miss (`_generate_all_recommendations` followed by
`_integrate_recommendations`, i.e. `computeBestAction` with the
collaborator inputs of the moment). -/
def getBestAction (compute : MasterGameState → ActionRecommendation)
    (m : MasterCacheState) (current_time : ℚ) :
    ActionRecommendation × MasterCacheState :=
  match m.currentGameState with
  | none => (noGameStateWait, m)
  | some state =>
    match m.cachedBest with
    | some cached =>
      if current_time - m.cacheTimestamp < 1 then (cached, m)
      else
        let best_action := compute state
        (best_action, { m with cachedBest := some best_action,
                               cacheTimestamp := current_time })
    | none =>
      let best_action := compute state
      (best_action, { m with cachedBest := some best_action,
                             cacheTimestamp := current_time })

/-! ## Shared concrete data for the theorems -/

/-- The default deck shipped in `deck_manager.py` (`meu_deck_atual`),
as card identities. -/
def defaultDeck : List Card :=
  [.knight, .archers, .skeletons, .spearGoblins, .cannon, .giant,
   .minipekka, .musketeer]

/-- A sequence of `get_next_combo_action` calls at the given times,
collecting the returned actions and threading the manager state. -/
def runComboCalls (m : ComboManager) :
    List ℚ → List (Option (Card × String × (ℤ × ℤ))) × ComboManager
  | [] => ([], m)
  | t :: ts =>
    let (r, m') := m.getNextComboAction t
    let (rs, m'') := runComboCalls m' ts
    (r :: rs, m'')

/-! ## Theorems -/

/-- The mid-game band of the time thresholds. -/
theorem basePhase_eq_midGame (t : ℚ) :
    basePhase t = .midGame ↔ 60 ≤ t ∧ t < 180 := by
  unfold basePhase
  split_ifs with h1 h2 h3 <;> simp
  · intro h; linarith
  · exact ⟨by linarith, h2⟩
  · intro h; linarith
  · intro h; linarith

/-- C7 counterexample: at 100 s of match time with an enemy princess tower
at 100 HP (far below the very-low threshold 200), the computed phase is
`late_game`, not `overtime` — the mid-game low-health branch fires first and
shadows the very-low-health branch. -/
theorem phase_very_low_health_not_overtime_cex :
    determineCurrentPhase 100
      { our_left := 3000, our_right := 3000, our_king := 4000,
        enemy_left := 100, enemy_right := 3000, enemy_king := 4000 } =
      GamePhase.lateGame ∧ GamePhase.lateGame ≠ GamePhase.overtime := by
  constructor
  · decide
  · decide

/-- C7 (amended): phase determination as the code implements it — a princess
tower (kings are not consulted) below 500 HP during the mid-game band
(60–180 s) gives `late_game`; a princess tower below 200 HP gives `overtime`
except in that mid-game band, where the first rule wins with `late_game`;
with all princess towers at or above 500 HP (and, more generally, at or
above 200 HP outside the shadowed case) the elapsed-time thresholds decide
(early before 60 s, mid before 180 s, late before 300 s, overtime after). -/
theorem determine_phase_characterization (t : ℚ) (towers : TowerStates) :
    (60 ≤ t ∧ t < 180 ∧ minPrincessTowerHp towers < 500 →
      determineCurrentPhase t towers = .lateGame) ∧
    (minPrincessTowerHp towers < 200 ∧ ¬(60 ≤ t ∧ t < 180) →
      determineCurrentPhase t towers = .overtime) ∧
    (200 ≤ minPrincessTowerHp towers ∧
        ¬(60 ≤ t ∧ t < 180 ∧ minPrincessTowerHp towers < 500) →
      determineCurrentPhase t towers = basePhase t) := by
  unfold determineCurrentPhase
  refine ⟨?_, ?_, ?_⟩
  · rintro ⟨h1, h2, h3⟩
    rw [if_pos ⟨h3, (basePhase_eq_midGame t).mpr ⟨h1, h2⟩⟩]
  · rintro ⟨h1, h2⟩
    rw [if_neg, if_pos h1]
    rintro ⟨-, hmid⟩
    exact h2 ((basePhase_eq_midGame t).mp hmid)
  · rintro ⟨h1, h2⟩
    rw [if_neg, if_neg (by omega)]
    intro hc
    exact h2 ⟨((basePhase_eq_midGame t).mp hc.2).1,
              ((basePhase_eq_midGame t).mp hc.2).2, hc.1⟩

/-- C7 witness: the amended characterization applied at concrete inputs —
overtime forced at 30 s by a 150 HP tower, and pure time thresholds with
healthy towers. -/
theorem determine_phase_characterization_witness :
    determineCurrentPhase 30
      { our_left := 150, our_right := 3000, our_king := 4000,
        enemy_left := 3000, enemy_right := 3000, enemy_king := 4000 } =
      GamePhase.overtime ∧
    determineCurrentPhase 200
      { our_left := 3000, our_right := 3000, our_king := 4000,
        enemy_left := 3000, enemy_right := 3000, enemy_king := 4000 } =
      basePhase 200 := by
  constructor
  · exact (determine_phase_characterization 30 _).2.1
      ⟨by decide, by rintro ⟨h, -⟩; norm_num at h⟩
  · exact (determine_phase_characterization 200 _).2.2
      ⟨by decide, by rintro ⟨-, h, -⟩; norm_num at h⟩

/-- C5 counterexample: an 8-entry deck containing `KnightAction` twice loads
through `get_deck_actions` without error and passes the only session-start
validation (`Bot.__init__`'s length-8 check), even though it is not
duplicate-free. -/
theorem deck_validation_accepts_duplicates_cex :
    getDeckActions
      [("dup_deck",
        { name := "Dup", description := "d",
          cards := ["KnightAction", "KnightAction", "ArchersAction",
                    "SkeletonsAction", "SpearGoblinsAction", "CannonAction",
                    "GiantAction", "MinipekkaAction"] })]
      ["KnightAction", "ArchersAction", "SkeletonsAction", "SpearGoblinsAction",
       "CannonAction", "GiantAction", "MinipekkaAction", "MusketeerAction"]
      "dup_deck" =
      .ok ["KnightAction", "KnightAction", "ArchersAction", "SkeletonsAction",
           "SpearGoblinsAction", "CannonAction", "GiantAction",
           "MinipekkaAction"] ∧
    botDeckCheck ["KnightAction", "KnightAction", "ArchersAction",
                  "SkeletonsAction", "SpearGoblinsAction", "CannonAction",
                  "GiantAction", "MinipekkaAction"] = .ok () ∧
    ¬ List.Nodup ["KnightAction", "KnightAction", "ArchersAction",
                  "SkeletonsAction", "SpearGoblinsAction", "CannonAction",
                  "GiantAction", "MinipekkaAction"] := by
  refine ⟨rfl, rfl, by decide⟩

/-- C5 (amended): the session-start deck validation accepts a card list
exactly when its length is 8; duplicates are never checked, so a
duplicate-containing 8-card list is accepted. -/
theorem bot_deck_check_size_only (cards : List String) :
    botDeckCheck cards = .ok () ↔ cards.length = 8 := by
  unfold botDeckCheck
  split_ifs with h <;> simp_all

/-- A combo whose entry is complete, expects no card, or is not yet due is
skipped by the `get_next_combo_action` loop. -/
theorem fireFirstCombo_single_skip (c : ActiveCombo) (t : ℚ)
    (h : c.is_complete = true ∨ c.expected_next_card = none ∨ t < c.next_card_timing) :
    fireFirstCombo t [c] = (none, [c], []) := by
  unfold fireFirstCombo
  rcases h with h | h | h
  · simp [h, fireFirstCombo]
  · cases hc : c.is_complete <;> simp [hc, h, fireFirstCombo]
  · cases hc : c.is_complete <;> simp [hc, fireFirstCombo]
    cases he : c.expected_next_card <;> simp [fireFirstCombo]
    exact h

/-- A non-complete combo that expects a card and whose deadline has passed
fires: the card is returned, appended to `cards_played`, and the combo state
is advanced by `_update_combo_state`. -/
theorem fireFirstCombo_single_fire (c : ActiveCombo) (t : ℚ) (card : Card)
    (hc : c.is_complete = false) (he : c.expected_next_card = some card)
    (ht : c.next_card_timing ≤ t) :
    fireFirstCombo t [c] =
      (some (card, lookupD c.definition.positioning_rules card.name "default",
             positionCoordinates (lookupD c.definition.positioning_rules card.name "default")),
       [(updateComboState { c with cards_played := c.cards_played ++ [card] } t).1],
       (updateComboState { c with cards_played := c.cards_played ++ [card] } t).2) := by
  unfold fireFirstCombo
  simp [hc, he, ht]

/-- With one active combo that does not fire, `get_next_combo_action`
returns nothing and leaves the manager unchanged. -/
theorem getNextComboAction_single_skip (m : ComboManager) (c : ActiveCombo) (t : ℚ)
    (hm : m.active_combos = [c])
    (h : c.is_complete = true ∨ c.expected_next_card = none ∨ t < c.next_card_timing) :
    m.getNextComboAction t = (none, m) := by
  unfold ComboManager.getNextComboAction
  rw [hm, fireFirstCombo_single_skip c t h]
  cases m
  simp_all

/-- Once every support card has been played, `_update_combo_state` marks the
combo complete, clears the expectation, and records the combo name. -/
theorem updateComboState_complete (c : ActiveCombo) (t : ℚ)
    (h : c.definition.support_cards.all (· ∈ c.cards_played)) :
    (updateComboState c t).1.is_complete = true ∧
    (updateComboState c t).1.expected_next_card = none ∧
    (updateComboState c t).2 = [c.definition.name] := by
  unfold updateComboState
  have hf : c.definition.support_cards.filter (fun card => card ∉ c.cards_played) = [] := by
    rw [List.filter_eq_nil_iff]
    intro a ha
    simp only [List.all_eq_true] at h
    simp [h a ha]
  rw [hf]
  exact ⟨rfl, rfl, rfl⟩

/-- A manager whose only active combo is complete returns nothing on every
later call and never changes again. -/
theorem runComboCalls_complete (m : ComboManager) (c : ActiveCombo)
    (hm : m.active_combos = [c]) (hc : c.is_complete = true) (ts : List ℚ) :
    runComboCalls m ts = (ts.map fun _ => none, m) := by
  induction ts with
  | nil => rfl
  | cons t ts ih =>
    unfold runComboCalls
    rw [getNextComboAction_single_skip m c t hm (Or.inl hc)]
    simp [ih]

/-- `start_combo` appends exactly the fresh active combo. -/
theorem startCombo_active (m₀ : ComboManager) (d : ComboDefinition) (t₀ : ℚ)
    (h₀ : m₀.active_combos = []) :
    (m₀.startCombo d t₀).2.active_combos = [freshActiveCombo d t₀] := by
  unfold ComboManager.startCombo freshActiveCombo
  simp [h₀]

/-- C2: the combo execution state machine, for a manager tracking one active
combo — (1) a call strictly before the combo's current deadline returns
nothing and changes nothing; (2) a call at or after the deadline on a
non-complete combo expecting a card returns exactly that card; (3) once all
support cards have been played, the state update marks the combo complete;
(4) a complete combo never yields an action again: any sequence of later
calls returns nothing and leaves the manager unchanged. -/
theorem combo_state_machine_timing
    (m : ComboManager) (c : ActiveCombo) (hm : m.active_combos = [c]) :
    (∀ t : ℚ, t < c.next_card_timing → m.getNextComboAction t = (none, m)) ∧
    (∀ (t : ℚ) (card : Card), c.next_card_timing ≤ t → c.is_complete = false →
      c.expected_next_card = some card →
      ∃ rule coords m', m.getNextComboAction t = (some (card, rule, coords), m')) ∧
    (∀ t : ℚ, c.definition.support_cards.all (· ∈ c.cards_played) →
      (updateComboState c t).1.is_complete = true) ∧
    (c.is_complete = true → ∀ ts : List ℚ,
      runComboCalls m ts = (ts.map fun _ => none, m)) := by
  refine ⟨?_, ?_, ?_, ?_⟩
  · intro t ht
    exact getNextComboAction_single_skip m c t hm (Or.inr (Or.inr ht))
  · intro t card ht hc he
    refine ⟨lookupD c.definition.positioning_rules card.name "default",
      positionCoordinates (lookupD c.definition.positioning_rules card.name "default"),
      { m with
          active_combos :=
            [(updateComboState { c with cards_played := c.cards_played ++ [card] } t).1]
          combo_history := m.combo_history ++
            (updateComboState { c with cards_played := c.cards_played ++ [card] } t).2 }, ?_⟩
    unfold ComboManager.getNextComboAction
    rw [hm, fireFirstCombo_single_fire c t card hc he ht]
  · intro t h
    exact (updateComboState_complete c t h).1
  · intro hc ts
    exact runComboCalls_complete m c hm hc ts

/-- C2 witness: the state machine applied to a freshly started
"Giant Musketeer" combo — a call strictly before the (initial) deadline 0
returns nothing and leaves the manager unchanged. -/
theorem combo_state_machine_timing_witness :
    ((ComboManager.init defaultDeck).startCombo giantMusketeerCombo 0).2.getNextComboAction (-1) =
      (none, ((ComboManager.init defaultDeck).startCombo giantMusketeerCombo 0).2) := by
  have h := combo_state_machine_timing
    ((ComboManager.init defaultDeck).startCombo giantMusketeerCombo 0).2
    (freshActiveCombo giantMusketeerCombo 0)
    (startCombo_active (ComboManager.init defaultDeck) giantMusketeerCombo 0 rfl)
  exact h.1 (-1) (by norm_num [freshActiveCombo])

/-- C9: a call to `get_next_combo_action` that returns a card advances the
combo as a side effect — the card is appended to `cards_played`, and either
the first unplayed support card becomes expected with deadline
`t + timing_delay`, or (no unplayed support left) the combo is marked
complete and its name recorded in the history; and for every catalog combo,
after `start_combo` at `t₀` the very first call at `t₀` already returns the
primary card (the initial deadline equals the start time) while a second
call at the same instant returns nothing. -/
theorem get_next_combo_action_advances_state
    (m : ComboManager) (c : ActiveCombo) (t : ℚ) (card : Card)
    (hm : m.active_combos = [c]) (hc : c.is_complete = false)
    (he : c.expected_next_card = some card) (ht : c.next_card_timing ≤ t) :
    (∃ rule coords m',
      m.getNextComboAction t = (some (card, rule, coords), m') ∧
      ∃ c', m'.active_combos = [c'] ∧
        c'.cards_played = c.cards_played ++ [card] ∧
        ((∃ next rest,
            c.definition.support_cards.filter
              (fun s => s ∉ c.cards_played ++ [card]) = next :: rest ∧
            c'.expected_next_card = some next ∧
            c'.next_card_timing = t + c.definition.timing_delay ∧
            c'.is_complete = false ∧ m'.combo_history = m.combo_history) ∨
         (c.definition.support_cards.filter
              (fun s => s ∉ c.cards_played ++ [card]) = [] ∧
            c'.is_complete = true ∧ c'.expected_next_card = none ∧
            m'.combo_history = m.combo_history ++ [c.definition.name]))) ∧
    (∀ d ∈ ComboDatabase.COMBOS, ∀ (m₀ : ComboManager) (t₀ : ℚ),
      m₀.active_combos = [] →
      ∃ rule coords m₁ m₂,
        (m₀.startCombo d t₀).2.getNextComboAction t₀ =
          (some (d.primary_card, rule, coords), m₁) ∧
        m₁.getNextComboAction t₀ = (none, m₂)) := by
  constructor
  · refine ⟨lookupD c.definition.positioning_rules card.name "default",
      positionCoordinates (lookupD c.definition.positioning_rules card.name "default"),
      { m with
          active_combos :=
            [(updateComboState { c with cards_played := c.cards_played ++ [card] } t).1]
          combo_history := m.combo_history ++
            (updateComboState { c with cards_played := c.cards_played ++ [card] } t).2 },
      ?_, (updateComboState { c with cards_played := c.cards_played ++ [card] } t).1,
      rfl, ?_, ?_⟩
    · unfold ComboManager.getNextComboAction
      rw [hm, fireFirstCombo_single_fire c t card hc he ht]
    · unfold updateComboState
      cases hf : c.definition.support_cards.filter
          (fun s => s ∉ c.cards_played ++ [card]) <;> simp [hf]
    · unfold updateComboState
      cases hf : c.definition.support_cards.filter
          (fun s => s ∉ c.cards_played ++ [card]) with
      | nil => right; simp [hf, hc]
      | cons next rest =>
        left
        exact ⟨next, rest, rfl, by simp [hf], by simp [hf], by simp [hf, hc],
          by simp [hf]⟩
  · intro d hd m₀ t₀ h₀
    have hfacts : 0 < d.timing_delay ∧
        ∃ next rest, d.support_cards.filter
          (fun s => s ∉ [d.primary_card]) = next :: rest := by
      simp only [ComboDatabase.COMBOS, List.mem_cons, List.not_mem_nil, or_false] at hd
      rcases hd with rfl | rfl | rfl | rfl | rfl | rfl
      · exact ⟨by norm_num [giantMusketeerCombo], .musketeer, [], by decide⟩
      · exact ⟨by norm_num [giantBomberCombo], .bomber, [], by decide⟩
      · exact ⟨by norm_num [hogIceSpiritCombo], .iceSpirit, [], by decide⟩
      · exact ⟨by norm_num [golemNightWitchCombo], .nightWitch, [.babyDragon], by decide⟩
      · exact ⟨by norm_num [xBowTeslaCombo], .tesla, [], by decide⟩
      · exact ⟨by norm_num [lavaLoonCombo], .balloon, [], by decide⟩
    obtain ⟨hdelay, next, rest, hsupp⟩ := hfacts
    have hact := startCombo_active m₀ d t₀ h₀
    have hupd : updateComboState
        { freshActiveCombo d t₀ with
            cards_played := (freshActiveCombo d t₀).cards_played ++ [d.primary_card] } t₀ =
        ({ freshActiveCombo d t₀ with
             cards_played := [d.primary_card], expected_next_card := some next,
             next_card_timing := t₀ + d.timing_delay }, []) := by
      unfold updateComboState freshActiveCombo
      simp only [List.nil_append]
      rw [hsupp]
    refine ⟨lookupD d.positioning_rules d.primary_card.name "default",
      positionCoordinates (lookupD d.positioning_rules d.primary_card.name "default"),
      { (m₀.startCombo d t₀).2 with
          active_combos :=
            [{ freshActiveCombo d t₀ with
                 cards_played := [d.primary_card], expected_next_card := some next,
                 next_card_timing := t₀ + d.timing_delay }]
          combo_history := (m₀.startCombo d t₀).2.combo_history ++ [] },
      { (m₀.startCombo d t₀).2 with
          active_combos :=
            [{ freshActiveCombo d t₀ with
                 cards_played := [d.primary_card], expected_next_card := some next,
                 next_card_timing := t₀ + d.timing_delay }]
          combo_history := (m₀.startCombo d t₀).2.combo_history ++ [] },
      ?_, ?_⟩
    · unfold ComboManager.getNextComboAction
      rw [hact, fireFirstCombo_single_fire (freshActiveCombo d t₀) t₀ d.primary_card
        rfl rfl le_rfl, hupd]
      rfl
    · exact getNextComboAction_single_skip _ _ t₀ rfl
        (Or.inr (Or.inr (show t₀ < t₀ + d.timing_delay by linarith)))

/-- C9 witness: the start-combo scenario applied to the "Giant Musketeer"
catalog combo on a fresh manager at time 0. -/
theorem get_next_combo_action_advances_state_witness :
    ∃ rule coords m₁ m₂,
      ((ComboManager.init defaultDeck).startCombo giantMusketeerCombo 0).2.getNextComboAction 0 =
        (some (giantMusketeerCombo.primary_card, rule, coords), m₁) ∧
      m₁.getNextComboAction 0 = (none, m₂) := by
  have h := get_next_combo_action_advances_state
    ((ComboManager.init defaultDeck).startCombo giantMusketeerCombo 0).2
    (freshActiveCombo giantMusketeerCombo 0) 0 Card.giant
    (startCombo_active (ComboManager.init defaultDeck) giantMusketeerCombo 0 rfl)
    rfl rfl le_rfl
  exact h.2 giantMusketeerCombo (by simp [ComboDatabase.COMBOS])
    (ComboManager.init defaultDeck) 0 rfl



/-- Python `min(iterable, key=f)` returns an element of the iterable. -/
theorem pyMinBy_mem (f : Card → ℤ) (l : List Card) (y : Card)
    (h : pyMinBy f l = some y) : y ∈ l := by
  induction l with
  | nil => simp [pyMinBy] at h
  | cons x xs ih =>
    unfold pyMinBy at h
    cases hr : pyMinBy f xs with
    | none => rw [hr] at h; simp at h; simp [h]
    | some z =>
      rw [hr] at h
      by_cases hlt : f z < f x
      · simp [hlt] at h
        subst h
        exact List.mem_cons_of_mem x (ih hr)
      · simp [hlt] at h
        simp [h]

/-- C1 (amended): the affordability invariant holds on the elixir track —
every `cycle` recommendation it emits names a card of estimated cost at most
3, which is affordable because the track only fires at elixir ≥ 9.  (The
combo manager and the defense track, by contrast, perform no affordability
check at all; see the counterexample.) -/
theorem elixir_track_cycle_recommendations_affordable
    (our_elixir : ℤ) (hand : List Card) (urgency spending_reason : String)
    (posOracle : Card → String → ℤ × ℤ) (rec : ActionRecommendation)
    (hmem : rec ∈ getElixirRecommendations our_elixir hand urgency spending_reason posOracle)
    (hcycle : rec.action_type = "cycle") :
    ∃ card, rec.card = some card ∧ estimateCardCost card ≤ 3 ∧
      estimateCardCost card ≤ our_elixir := by
  unfold getElixirRecommendations at hmem
  split_ifs at hmem with h9 hlow
  · simp only [] at hmem
    split at hmem
    · simp at hmem
    · rename_i best hmin
      simp at hmem
      subst hmem
      have hb := pyMinBy_mem _ _ _ hmin
      rw [List.mem_filter] at hb
      have h3 : estimateCardCost best ≤ 3 := by simpa using hb.2
      exact ⟨best, rfl, h3, by linarith⟩
  · simp at hmem
    rw [hmem] at hcycle
    simp at hcycle
  · simp at hmem

/-- C1 counterexample: neither the combo manager nor the defense track
checks affordability.  After starting the "Giant Musketeer" combo at time 0
and playing the Giant, the call at time 2 returns the Musketeer
(estimated cost 4) even though own elixir may then be 3; and with 0 elixir
and only a P.E.K.K.A (cost 7) in hand, the defense track still recommends it
against a Giant threat. -/
theorem affordability_not_checked_cex :
    ((((ComboManager.init defaultDeck).startCombo giantMusketeerCombo 0).2.getNextComboAction
          0).2.getNextComboAction 2).1 =
      some (Card.musketeer, "behind_giant_when_crossing", (9, 8)) ∧
    ¬(estimateCardCost Card.musketeer ≤ 3) ∧
    (∃ rec ∈ getDefenseRecommendations
        [{ card := "giant", confidence := 0.9, time_to_threat := 3, threat_level := "HIGH" }]
        [Card.pekka] (fun _ _ => (5, 5)),
      rec.card = some Card.pekka ∧ ¬(estimateCardCost Card.pekka ≤ 0)) := by
  refine ⟨?_, by decide, ?_⟩
  · norm_num [ComboManager.init, ComboManager.startCombo, ComboManager.getNextComboAction,
      fireFirstCombo, updateComboState, giantMusketeerCombo, lookupD, positionCoordinates,
      Card.name, ComboDatabase.getAvailableCombos, ComboDatabase.COMBOS, defaultDeck,
      pySortStable, insertSorted, giantBomberCombo, hogIceSpiritCombo,
      golemNightWitchCombo, xBowTeslaCombo, lavaLoonCombo, List.find?]
    decide
  · have hg : getattrCards (pyUpper "giant") = some Card.giant := by decide
    have hrecs : getDefenseRecommendations
        [{ card := "giant", confidence := 0.9, time_to_threat := 3, threat_level := "HIGH" }]
        [Card.pekka] (fun _ _ => (5, 5)) =
        [{ action_type := "defend", card := some Card.pekka, position := some (5, 5),
           confidence := 0.9 * 0.9,
           reasoning := ["Counter " ++ "giant" ++ " threat", "Threat level: " ++ "HIGH"],
           priority := 5, timing_delay := max 0 (3 - 1.0) }] := by
      norm_num [getDefenseRecommendations, hg, isGoodCounter, lookupCard]
    rw [hrecs]
    exact ⟨_, List.mem_singleton_self _, rfl, by decide⟩

/-- C3: the recommendation cache — a second `get_best_action` call made
while the one-second window around the (post-first-call) cache timestamp is
still open, with no intervening `update_game_state`, returns exactly the
first call's recommendation (the cached entry). -/
theorem get_best_action_cache_idempotent
    (compute : MasterGameState → ActionRecommendation)
    (m : MasterCacheState) (s : MasterGameState) (t₁ t₂ : ℚ)
    (hs : m.currentGameState = some s)
    (hwin : t₂ - ((getBestAction compute m t₁).2).cacheTimestamp < 1) :
    (getBestAction compute ((getBestAction compute m t₁).2) t₂).1 =
      (getBestAction compute m t₁).1 := by
  obtain ⟨cgs, cb, ts⟩ := m
  simp only [MasterCacheState.mk.injEq] at hs ⊢
  subst hs
  cases cb with
  | none =>
    unfold getBestAction at hwin ⊢
    simp at hwin ⊢
    simp [hwin]
  | some cached =>
    unfold getBestAction at hwin ⊢
    by_cases hfresh : t₁ - ts < 1
    · simp [hfresh] at hwin ⊢
      simp [hwin]
    · simp [hfresh] at hwin ⊢
      simp [hwin]

/-- C4 counterexample: an empty snapshot does not degrade to "no
opportunities, neutral mode" — with no enemies on board the estimated enemy
elixir deficit is 6, so a deck with a win condition produces an attack
opportunity and mode "ATTACK"; and a snapshot whose `numbers` block is
missing makes `analyze_state` raise (`state.numbers.elixir.number`) rather
than return gracefully. -/
theorem analyze_state_no_enemies_cex :
    (∃ info, analyzeState (some Card.giant) { enemies := [], elixir := some 6 } = .ok info ∧
      info.threats = [] ∧ info.opportunities ≠ [] ∧ info.game_mode = "ATTACK") ∧
    analyzeState (some Card.giant) { enemies := [], elixir := none } =
      .error "AttributeError: numbers" := by
  constructor
  · refine ⟨_, rfl, ?_, ?_, ?_⟩ <;>
      norm_num [analyzeState, analyzeThreats, analyzeOpportunities,
        estimateEnemyElixirDeficit, determineGameMode, pySortStable, insertSorted,
        Card.name]
  · rfl

/-- C4 (amended): with an empty enemy list, an elixir reading present and
below 9, and a deck with no primary win condition, `analyze_state` returns
normally with zero threats, no opportunities and mode "NEUTRAL".  (With a
win condition in the deck the empty board is instead read as an attack
opportunity, and a missing `numbers` block propagates an exception.) -/
theorem analyze_state_degrades_without_win_condition
    (state : Snapshot) (elixir : ℚ) (h1 : state.enemies = [])
    (h2 : state.elixir = some elixir) (h3 : elixir < 9) :
    ∃ info, analyzeState none state = .ok info ∧ info.threats = [] ∧
      info.opportunities = [] ∧ info.game_mode = "NEUTRAL" := by
  obtain ⟨enemies, elx⟩ := state
  simp only at h1 h2
  subst h1
  subst h2
  refine ⟨_, rfl, ?_, ?_, ?_⟩ <;>
    simp [analyzeState, analyzeThreats, analyzeOpportunities,
      estimateEnemyElixirDeficit, determineGameMode, pySortStable, insertSorted,
      show ¬(9 ≤ elixir) from not_le.mpr h3]

/-- C4 witness: the amended degradation theorem at a concrete empty
snapshot with elixir 5. -/
theorem analyze_state_degrades_witness :
    ∃ info, analyzeState none { enemies := [], elixir := some 5 } = .ok info ∧
      info.threats = [] ∧ info.opportunities = [] ∧ info.game_mode = "NEUTRAL" :=
  analyze_state_degrades_without_win_condition { enemies := [], elixir := some 5 } 5
    rfl rfl (by norm_num)

/-- C6 counterexample: at elixir 10 with a hand of Pekka, Golem, Musketeer
and Giant — all affordable, the cheapest being Musketeer at cost 4 — the
elixir track emits no recommendation at all: the anti-waste rule only fires
when some hand card has estimated cost ≤ 3. -/
theorem anti_waste_needs_cheap_card_cex :
    getElixirRecommendations 10 [.pekka, .golem, .musketeer, .giant] "high" "r"
      (fun _ _ => (5, 5)) = [] ∧
    estimateCardCost Card.musketeer = 4 ∧ estimateCardCost Card.musketeer ≤ 10 := by
  refine ⟨?_, by decide, by decide⟩
  norm_num [getElixirRecommendations, pyMinBy, estimateCardCost]

/-- If no timing-catalog combo has all its cards in hand, the timing
manager offers nothing. -/
theorem getAvailableCombos_nil (hand : List Card) (confOf : String → ℚ)
    (h : ∀ ct ∈ comboTimings, ¬ ∀ x ∈ ct.cards, x ∈ hand) :
    getAvailableCombos hand confOf = [] := by
  unfold getAvailableCombos
  have : comboTimings.filterMap (fun ct =>
      if ct.cards.all (· ∈ hand) then
        some { name := ct.combo_name, cards := ct.cards,
               confidence := confOf ct.combo_name, base_delay := ct.base_delay }
      else (none : Option TimingCombo)) = [] := by
    rw [List.filterMap_eq_nil_iff]
    intro ct hct
    rw [if_neg]
    simp only [List.all_eq_true, decide_eq_true_eq]
    exact fun hall => h ct hct fun x hx => hall x hx
  rw [this]
  rfl

/-- Python `min` fails exactly on an empty iterable. -/
theorem pyMinBy_eq_none_iff (f : Card → ℤ) (l : List Card) :
    pyMinBy f l = none ↔ l = [] := by
  induction l with
  | nil => simp [pyMinBy]
  | cons x xs ih =>
    unfold pyMinBy
    cases hr : pyMinBy f xs
    · simp
    · dsimp only
      split <;> simp

/-- Python `min(iterable, key=f)` minimizes the key. -/
theorem pyMinBy_le (f : Card → ℤ) : ∀ (l : List Card) (y : Card),
    pyMinBy f l = some y → ∀ x ∈ l, f y ≤ f x := by
  intro l
  induction l with
  | nil => intro y h x hx; simp at hx
  | cons x xs ih =>
    intro y h a ha
    unfold pyMinBy at h
    cases hr : pyMinBy f xs with
    | none =>
      rw [hr] at h
      simp at h
      subst h
      have hxs : xs = [] := (pyMinBy_eq_none_iff f xs).mp hr
      subst hxs
      simp at ha
      subst ha
      exact le_refl _
    | some z =>
      rw [hr] at h
      dsimp only at h
      split at h
      · rename_i hlt
        injection h with h
        subst h
        rcases List.mem_cons.mp ha with rfl | ha
        · linarith
        · exact ih _ hr a ha
      · rename_i hlt
        injection h with h
        subst h
        rcases List.mem_cons.mp ha with rfl | ha
        · exact le_refl _
        · exact le_trans (not_lt.mp hlt) (ih _ hr a ha)

/-- No immediate threats, no defense recommendations. -/
theorem getDefenseRecommendations_no_threats (hand : List Card)
    (posOracle : Card → String → ℤ × ℤ) :
    getDefenseRecommendations [] hand posOracle = [] := rfl

/-- No opportunities, no attack recommendations. -/
theorem getAttackRecommendations_no_opportunities (hand : List Card)
    (shouldSpend : Card → Bool × String) (posOracle : Card → String → ℤ × ℤ) :
    getAttackRecommendations [] hand shouldSpend posOracle = [] := rfl

/-- No units on the field, no positioning recommendations. -/
theorem getPositioningRecommendations_no_units (hand : List Card)
    (posOracle : Card → String → ℤ × ℤ) :
    getPositioningRecommendations [] hand posOracle = [] := rfl

/-- No fully-in-hand timing combo, no timing recommendations. -/
theorem getTimingRecommendations_no_combos (hand : List Card)
    (confOf : String → ℚ) (execInfo : String → Bool × ℚ)
    (posOracle : Card → String → ℤ × ℤ)
    (h : ∀ ct ∈ comboTimings, ¬ ∀ x ∈ ct.cards, x ∈ hand) :
    getTimingRecommendations hand confOf execInfo posOracle = [] := by
  unfold getTimingRecommendations
  rw [getAvailableCombos_nil hand confOf h]
  rfl

/-- C6 (amended): at elixir ≥ 9, provided some hand card has estimated
cost ≤ 3, the elixir track emits exactly one recommendation — kind `cycle`,
naming the cheapest such card, with zero timing delay, priority 4 and
confidence 0.9 — independent of the other tracks' inputs; and in a state
with no threats, no opportunities, no units on the field and no available
timing combo, that cycle recommendation is the engine's final integrated
action, for every phase configuration. -/
theorem anti_waste_cycle_rule
    (config : PhaseConfiguration) (st : MasterGameState) (inp : TrackInputs)
    (h9 : 9 ≤ st.our_elixir)
    (hcheap : ∃ c ∈ st.our_hand, estimateCardCost c ≤ 3) :
    (∃ rec card,
      getElixirRecommendations st.our_elixir st.our_hand inp.urgency
        inp.spending_reason inp.posOracle = [rec] ∧
      rec.action_type = "cycle" ∧ rec.card = some card ∧ rec.timing_delay = 0 ∧
      rec.priority = 4 ∧ rec.confidence = 0.9 ∧ estimateCardCost card ≤ 3 ∧
      (∀ x ∈ st.our_hand, estimateCardCost x ≤ 3 →
        estimateCardCost card ≤ estimateCardCost x)) ∧
    (inp.threats = [] → inp.opportunities = [] → st.units_on_field = [] →
      (∀ ct ∈ comboTimings, ¬ ∀ x ∈ ct.cards, x ∈ st.our_hand) →
      ∃ card, (computeBestAction config st inp).action_type = "cycle" ∧
        (computeBestAction config st inp).card = some card ∧
        (computeBestAction config st inp).timing_delay = 0 ∧
        (computeBestAction config st inp).confidence = 0.9 ∧
        estimateCardCost card ≤ 3) := by
  have partA : ∃ rec card,
      getElixirRecommendations st.our_elixir st.our_hand inp.urgency
        inp.spending_reason inp.posOracle = [rec] ∧
      rec.action_type = "cycle" ∧ rec.card = some card ∧ rec.timing_delay = 0 ∧
      rec.priority = 4 ∧ rec.confidence = 0.9 ∧ estimateCardCost card ≤ 3 ∧
      (∀ x ∈ st.our_hand, estimateCardCost x ≤ 3 →
        estimateCardCost card ≤ estimateCardCost x) := by
    unfold getElixirRecommendations
    rw [if_pos h9]
    simp only []
    cases hmin : pyMinBy estimateCardCost
        (List.filter (fun card => decide (estimateCardCost card ≤ 3)) st.our_hand) with
    | none =>
      exfalso
      obtain ⟨c, hc, hc3⟩ := hcheap
      have hnil : (List.filter (fun card => decide (estimateCardCost card ≤ 3)) st.our_hand) = [] :=
        (pyMinBy_eq_none_iff _ _).mp hmin
      have hmem : c ∈ List.filter (fun card => decide (estimateCardCost card ≤ 3)) st.our_hand := by
        rw [List.mem_filter]
        exact ⟨hc, by simpa using hc3⟩
      rw [hnil] at hmem
      simp at hmem
    | some best =>
      refine ⟨_, best, rfl, rfl, rfl, by norm_num, rfl, rfl, ?_, ?_⟩
      · have := pyMinBy_mem _ _ _ hmin
        rw [List.mem_filter] at this
        simpa using this.2
      · intro x hx hx3
        exact pyMinBy_le _ _ _ hmin x (by rw [List.mem_filter]; exact ⟨hx, by simpa using hx3⟩)
  refine ⟨partA, ?_⟩
  intro ht ho hu hcombo
  obtain ⟨rec, card, hrecs, hat, hcard, hdelay, hprio, hconf, hc3, hmin⟩ := partA
  refine ⟨card, ?_⟩
  unfold computeBestAction generateAllRecommendations
  rw [ht, ho, hu, hrecs, getDefenseRecommendations_no_threats,
    getAttackRecommendations_no_opportunities, getPositioningRecommendations_no_units,
    getTimingRecommendations_no_combos st.our_hand inp.comboConfidence inp.execInfo
      inp.posOracle hcombo]
  unfold integrateRecommendations
  simp only [List.flatMap_cons, List.flatMap_nil, List.map_nil, List.map_cons,
    List.nil_append, List.append_nil, pySortStable, insertSorted, List.foldr]
  simp only [categoryWeight, systemWeights, lookupD, List.find?]
  simp [hat, hcard, hdelay, hconf, hc3, calculateTimingModifier, lookupD, List.find?]
  norm_num

/-- Unfolding a card-keyed lookup one entry. -/
theorem lookupCard_cons {α : Type} (c : Card) (v : α) (tl : List (Card × α)) (t : Card) :
    lookupCard ((c, v) :: tl) t = if c = t then some v else lookupCard tl t := by
  unfold lookupCard
  by_cases hc : c = t
  · subst hc
    rw [List.find?_cons_of_pos _ (by simp)]
    simp
  · rw [List.find?_cons_of_neg _ (by simp [hc]), if_neg hc]

/-- Rewriting one key's value in a card-keyed table. -/
theorem lookupCard_map_update {α : Type} (db : List (Card × α)) (t : Card)
    (entries g : α) (h : lookupCard db t = some entries) :
    lookupCard (db.map fun p => if p.1 = t then (p.1, g) else p) t = some g := by
  induction db with
  | nil => simp [lookupCard] at h
  | cons hd tl ih =>
    obtain ⟨c, v⟩ := hd
    rw [lookupCard_cons] at h
    by_cases hc : c = t
    · simp only [List.map_cons, if_pos hc]
      rw [hc, lookupCard_cons, if_pos rfl]
    · rw [if_neg hc] at h
      simp only [List.map_cons, if_neg hc]
      rw [lookupCard_cons, if_neg hc]
      exact ih h

/-- The counter-database inner loop rewrites exactly the first entry for
the used defense card, applying the EMA. -/
theorem find_updateCounterEntries (d : Card) (rate : ℚ) :
    ∀ (l : List (Card × ℚ)) (e : ℚ),
    ((l.find? fun q => q.1 = d).map (·.2)) = some e →
    (((updateCounterEntries d rate l).find? fun q => q.1 = d).map (·.2)) =
      some (e * 0.8 + rate * 0.2) := by
  intro l
  induction l with
  | nil => intro e h; simp [List.find?] at h
  | cons hd tl ih =>
    intro e h
    obtain ⟨c, ef⟩ := hd
    by_cases hc : c = d
    · subst hc
      unfold updateCounterEntries
      rw [if_pos rfl]
      rw [List.find?_cons_of_pos _ (by simp)] at h
      rw [List.find?_cons_of_pos _ (by simp)]
      simp only [Option.map_some'] at h ⊢
      injection h with h
      rw [h]
    · unfold updateCounterEntries
      rw [if_neg hc]
      rw [List.find?_cons_of_neg _ (by simp [hc])] at h
      rw [List.find?_cons_of_neg _ (by simp [hc])]
      exact ih e h

/-- C8 (amended): after a reported outcome for a present (threat, counter)
pair, the stored effectiveness is replaced by `0.8 · prior + 0.2 · r`, where
`r` is the rolling success rate over the last ≤ 10 reported outcomes for the
pair including the current one — and the update moves monotonically toward
that rolling rate: it never overshoots, and never moves away from it.
(It is the rolling rate, not the single reported outcome, that the update
tracks; see the counterexample.) -/
theorem defense_adaptation_moves_toward_window_rate
    (s : DefenseAdaptState) (defense threat : Card) (success : Bool) (e : ℚ)
    (h : storedEffectiveness s threat defense = some e) :
    storedEffectiveness (adaptDefenses s defense threat success) threat defense =
      some (e * 0.8 + successRate (rollingWindow s defense threat success) * 0.2) ∧
    (e ≤ successRate (rollingWindow s defense threat success) →
      e ≤ e * 0.8 + successRate (rollingWindow s defense threat success) * 0.2 ∧
      e * 0.8 + successRate (rollingWindow s defense threat success) * 0.2 ≤
        successRate (rollingWindow s defense threat success)) ∧
    (successRate (rollingWindow s defense threat success) ≤ e →
      successRate (rollingWindow s defense threat success) ≤
        e * 0.8 + successRate (rollingWindow s defense threat success) * 0.2 ∧
      e * 0.8 + successRate (rollingWindow s defense threat success) * 0.2 ≤ e) := by
  refine ⟨?_, fun hle => ⟨by nlinarith, by nlinarith⟩, fun hge => ⟨by nlinarith, by nlinarith⟩⟩
  unfold storedEffectiveness at h ⊢
  cases hdb : lookupCard s.counter_database threat with
  | none => rw [hdb] at h; simp at h
  | some entries =>
    rw [hdb] at h
    simp only [Option.bind_eq_bind, Option.some_bind] at h
    unfold adaptDefenses
    rw [hdb]
    rw [lookupCard_map_update s.counter_database threat entries _ hdb]
    simp only [Option.bind_eq_bind, Option.some_bind]
    exact find_updateCounterEntries defense _ entries e h

/-- C8 counterexample: a reported success can decrease the stored
effectiveness.  Seeding (Giant → Inferno Tower) at 0.9 and reporting four
failures then one success, the fifth (successful) report lowers the stored
effectiveness from 0.36864 to 0.334912, because the rolling success rate
(1/5) is still far below the prior effectiveness. -/
theorem defense_adaptation_success_can_decrease_cex :
    storedEffectiveness
        (adaptDefenses (adaptDefenses (adaptDefenses (adaptDefenses
          (adaptDefenses DefenseAdaptState.init .infernoTower .giant false)
          .infernoTower .giant false) .infernoTower .giant false)
          .infernoTower .giant false) .infernoTower .giant true)
        .giant .infernoTower = some (5233 / 15625) ∧
    storedEffectiveness
        (adaptDefenses (adaptDefenses (adaptDefenses
          (adaptDefenses DefenseAdaptState.init .infernoTower .giant false)
          .infernoTower .giant false) .infernoTower .giant false)
          .infernoTower .giant false)
        .giant .infernoTower = some (1152 / 3125) ∧
    (5233 / 15625 : ℚ) < 1152 / 3125 := by
  refine ⟨?_, ?_, by norm_num⟩ <;>
    norm_num [DefenseAdaptState.init, adaptDefenses, rollingWindow, setBoolKey,
      lookupD, lookupCard, storedEffectiveness, successRate, updateCounterEntries,
      initialCounterDatabase, List.find?, Card.name]

/-- Transition actions keep aggression and risk inside [0.1, 1.0]. -/
theorem applyTransitionAction_bounds (action : String) (config : PhaseConfiguration)
    (h : configInBounds config) : configInBounds (applyTransitionAction action config) := by
  obtain ⟨h1, h2, h3, h4⟩ := h
  unfold applyTransitionAction
  split_ifs <;>
    refine ⟨?_, ?_, ?_, ?_⟩ <;>
    first
      | assumption
      | exact le_min (by norm_num) (by linarith)
      | exact min_le_left _ _
      | norm_num

/-- Dynamic adaptations keep aggression and risk inside [0.1, 1.0]. -/
theorem applyDynamicAdaptations_bounds (recent : List String) (config : PhaseConfiguration)
    (h : configInBounds config) : configInBounds (applyDynamicAdaptations recent config) := by
  obtain ⟨h1, h2, h3, h4⟩ := h
  unfold applyDynamicAdaptations
  split_ifs with hlen
  · dsimp only
    split_ifs <;>
      refine ⟨?_, ?_, ?_, ?_⟩ <;>
      first
        | assumption
        | exact le_min (by norm_num) (by linarith)
        | exact min_le_left _ _
        | exact le_max_left _ _
        | exact max_le (by norm_num) (by linarith)
  · exact ⟨h1, h2, h3, h4⟩

/-- Performance optimization keeps aggression and risk inside [0.1, 1.0]. -/
theorem optimizeStep_bounds (scores : List ℚ) (config : PhaseConfiguration)
    (h : configInBounds config) : configInBounds (optimizeStep scores config) := by
  obtain ⟨h1, h2, h3, h4⟩ := h
  unfold optimizeStep
  split_ifs with hlen
  · dsimp only
    split_ifs <;>
      refine ⟨?_, ?_, ?_, ?_⟩ <;>
      first
        | assumption
        | exact le_min (by norm_num) (by linarith)
        | exact min_le_left _ _
        | exact le_max_left _ _
        | exact max_le (by norm_num) (by linarith)
  · exact ⟨h1, h2, h3, h4⟩

/-- Every adaptive update preserves the bounds invariant. -/
theorem applyConfigUpdate_bounds (config : PhaseConfiguration) (u : ConfigUpdate)
    (h : configInBounds config) : configInBounds (applyConfigUpdate config u) := by
  cases u with
  | transition action => exact applyTransitionAction_bounds action config h
  | dynamic recent => exact applyDynamicAdaptations_bounds recent config h
  | optimize scores => exact optimizeStep_bounds scores config h

/-- C10: every initial phase configuration has aggression and risk in
[0.1, 1.0], and every sequence of adaptive updates (transition actions,
dynamic adaptation, performance optimization) keeps them there — each
upward nudge is clamped at 1.0 and each downward nudge at 0.1. -/
theorem phase_config_bounds_invariant :
    (∀ p config, (p, config) ∈ initialPhaseConfigurations → configInBounds config) ∧
    (∀ config, configInBounds config → ∀ updates : List ConfigUpdate,
      configInBounds (updates.foldl applyConfigUpdate config)) := by
  constructor
  · intro p config hmem
    simp [initialPhaseConfigurations] at hmem
    rcases hmem with ⟨-, rfl⟩ | ⟨-, rfl⟩ | ⟨-, rfl⟩ | ⟨-, rfl⟩ <;>
      refine ⟨?_, ?_, ?_, ?_⟩ <;>
      norm_num [earlyGameConfig, midGameConfig, lateGameConfig, overtimeConfig]
  · intro config h updates
    induction updates generalizing config with
    | nil => exact h
    | cons u us ih => exact ih _ (applyConfigUpdate_bounds config u h)

/-- C10 witness: the invariant carried through a concrete update sequence
starting from the early-game configuration. -/
theorem phase_config_bounds_invariant_witness :
    configInBounds ([ConfigUpdate.transition "increase_aggression",
        ConfigUpdate.dynamic ["failed_attack"],
        ConfigUpdate.optimize []].foldl applyConfigUpdate earlyGameConfig) :=
  phase_config_bounds_invariant.2 earlyGameConfig
    (phase_config_bounds_invariant.1 .earlyGame earlyGameConfig
      (by simp [initialPhaseConfigurations])) _

/-- C3 witness: the cache theorem applied to a concrete controller state
and the call times 5 and 5.5 seconds. -/
theorem get_best_action_cache_idempotent_witness :
    (getBestAction (fun _ => noRecommendationWait)
        ((getBestAction (fun _ => noRecommendationWait)
            { currentGameState := some { our_elixir := 5, our_hand := [], units_on_field := [] },
              cachedBest := none, cacheTimestamp := 0 } 5).2) (11 / 2)).1 =
      (getBestAction (fun _ => noRecommendationWait)
          { currentGameState := some { our_elixir := 5, our_hand := [], units_on_field := [] },
            cachedBest := none, cacheTimestamp := 0 } 5).1 :=
  get_best_action_cache_idempotent (fun _ => noRecommendationWait) _ _ 5 (11 / 2) rfl
    (by norm_num [getBestAction])

theorem elixir_track_cycle_recommendations_affordable_witness :
    ∃ card,
      ({ action_type := "cycle", card := some Card.knight, position := some (0, 0),
         confidence := 0.9,
         reasoning := ["Prevent elixir leak", "Elixir at " ++ toString (9 : ℤ)],
         priority := 4, timing_delay := 0.0 } : ActionRecommendation).card = some card ∧
      estimateCardCost card ≤ 3 ∧ estimateCardCost card ≤ 9 :=
  elixir_track_cycle_recommendations_affordable 9 [Card.knight] "x" "r" (fun _ _ => (0, 0)) _
    (by norm_num [getElixirRecommendations, pyMinBy]) rfl

/-- C6 witness: the anti-waste rule at elixir 10 with hand
[Knight, Pekka] and empty collaborator inputs. -/
theorem anti_waste_cycle_rule_witness :
    ∃ card,
      (computeBestAction earlyGameConfig
          { our_elixir := 10, our_hand := [Card.knight, Card.pekka], units_on_field := [] }
          { threats := [], opportunities := [], urgency := "high", spending_reason := "r",
            shouldSpend := fun _ => (true, "r"), comboConfidence := fun _ => 1,
            execInfo := fun _ => (true, 0.5), posOracle := fun _ _ => (5, 5) }).action_type =
        "cycle" ∧
      (computeBestAction earlyGameConfig
          { our_elixir := 10, our_hand := [Card.knight, Card.pekka], units_on_field := [] }
          { threats := [], opportunities := [], urgency := "high", spending_reason := "r",
            shouldSpend := fun _ => (true, "r"), comboConfidence := fun _ => 1,
            execInfo := fun _ => (true, 0.5), posOracle := fun _ _ => (5, 5) }).card =
        some card ∧
      (computeBestAction earlyGameConfig
          { our_elixir := 10, our_hand := [Card.knight, Card.pekka], units_on_field := [] }
          { threats := [], opportunities := [], urgency := "high", spending_reason := "r",
            shouldSpend := fun _ => (true, "r"), comboConfidence := fun _ => 1,
            execInfo := fun _ => (true, 0.5), posOracle := fun _ _ => (5, 5) }).timing_delay =
        0 ∧
      (computeBestAction earlyGameConfig
          { our_elixir := 10, our_hand := [Card.knight, Card.pekka], units_on_field := [] }
          { threats := [], opportunities := [], urgency := "high", spending_reason := "r",
            shouldSpend := fun _ => (true, "r"), comboConfidence := fun _ => 1,
            execInfo := fun _ => (true, 0.5), posOracle := fun _ _ => (5, 5) }).confidence =
        0.9 ∧
      estimateCardCost card ≤ 3 :=
  (anti_waste_cycle_rule earlyGameConfig
      { our_elixir := 10, our_hand := [Card.knight, Card.pekka], units_on_field := [] }
      { threats := [], opportunities := [], urgency := "high", spending_reason := "r",
        shouldSpend := fun _ => (true, "r"), comboConfidence := fun _ => 1,
        execInfo := fun _ => (true, 0.5), posOracle := fun _ _ => (5, 5) }
      (by norm_num) ⟨Card.knight, by simp, by decide⟩).2
    rfl rfl rfl (by simp [comboTimings])

/-- C8 witness: the EMA update theorem applied to the freshly seeded
database with one reported success for (Giant, Inferno Tower). -/
theorem defense_adaptation_moves_toward_window_rate_witness :
    storedEffectiveness (adaptDefenses DefenseAdaptState.init .infernoTower .giant true)
        .giant .infernoTower =
      some (0.9 * 0.8 +
        successRate (rollingWindow DefenseAdaptState.init .infernoTower .giant true) * 0.2) :=
  (defense_adaptation_moves_toward_window_rate DefenseAdaptState.init .infernoTower .giant
      true 0.9
      (by norm_num [storedEffectiveness, lookupCard, initialCounterDatabase, List.find?,
        DefenseAdaptState.init])).1


end CRBot
